import Mathlib

/-!
Shallow embedding of the simulation core of the cyber-risk Monte Carlo
service (backend/app/simulation/: financial.py, engine.py, metrics.py,
parameters.py, exceptions.py, distributions.py).

Conventions of the embedding:
* Python floats are modelled as rationals (`ℚ`); all the financial and
  metric computations in scope are closed under rational arithmetic.
  `float('inf')` appearing in `min(x, limit or float('inf'))` is modelled
  by the absent-limit branch of an `Option`; `np.nan` cannot arise over `ℚ`.
* `numpy` arrays are modelled as `List ℚ`; elementwise operations as `map`.
* Python dictionaries whose values alone matter (`sub_limits`,
  `frequency_params`, …) are modelled as association lists
  `List (String × ℚ)` with `List.lookup`.
* A raised exception is an `Except.error`; dataclass `__post_init__`
  validators are modelled as functions returning `Except String _`.
-/

/-- Python truthiness of an optional numeric field (`if x:`): `None` and `0`
are falsy.  Used where the source tests a raw value, not `is not None`. -/
def pyTruthy (x : Option ℚ) : Bool :=
  match x with
  | none => false
  | some v => v ≠ 0

/-- `financial.PolicyTerms` (dataclass fields, prior to `__post_init__`). -/
structure PolicyTerms where
  policy_id : String
  coverage_limit : ℚ
  deductible : ℚ := 0
  sub_limits : List (String × ℚ) := []
  coinsurance : ℚ := 0
  waiting_period : ℤ := 0
  policy_aggregate : Option ℚ := none
deriving DecidableEq, Repr

/-- `PolicyTerms.__post_init__`: the checks the source performs, in source
order.  Note the source does NOT validate `sub_limits` values or
`waiting_period`. -/
def PolicyTerms.post_init (p : PolicyTerms) : Except String PolicyTerms :=
  if p.coverage_limit ≤ 0 then
    .error "Coverage limit must be positive"
  else if p.deductible < 0 then
    .error "Deductible cannot be negative"
  else if ¬ (0 ≤ p.coinsurance ∧ p.coinsurance ≤ 1) then
    .error "Coinsurance must be between 0 and 1"
  else
    match p.policy_aggregate with
    | some a => if a ≤ 0 then .error "Policy aggregate must be positive" else .ok p
    | none => .ok p

/-- `financial.ReinsuranceLayer` (dataclass fields).  `layer_type` stays a
string, as in the source. -/
structure ReinsuranceLayer where
  layer_type : String
  attachment_point : ℚ := 0
  limit : Option ℚ := none
  cession_rate : ℚ := 0
  priority : ℤ := 1
deriving DecidableEq, Repr

/-- The source's list of valid reinsurance layer types. -/
def validLayerTypes : List String :=
  ["quota_share", "surplus", "excess_of_loss", "stop_loss"]

/-- `ReinsuranceLayer.__post_init__`: source order of checks.  Note the
source does NOT validate `priority`. -/
def ReinsuranceLayer.post_init (l : ReinsuranceLayer) : Except String ReinsuranceLayer :=
  if l.layer_type ∉ validLayerTypes then
    .error "Invalid reinsurance type"
  else if l.attachment_point < 0 then
    .error "Attachment point cannot be negative"
  else
    match l.limit with
    | some lim => if lim ≤ 0 then .error "Reinsurance limit must be positive"
                  else if ¬ (0 ≤ l.cession_rate ∧ l.cession_rate ≤ 1) then
                    .error "Cession rate must be between 0 and 1"
                  else .ok l
    | none => if ¬ (0 ≤ l.cession_rate ∧ l.cession_rate ≤ 1) then
                .error "Cession rate must be between 0 and 1"
              else .ok l

/-- `min(x, layer.limit or float('inf'))` from the source: Python `or`
treats both `None` and `0.0` as falsy, turning the bound into `+∞`
(i.e. no bound). -/
def minWithLimit (x : ℚ) (lim : Option ℚ) : ℚ :=
  match lim with
  | none => x
  | some l => if l = 0 then x else min x l

/-- `FinancialCalculator._calculate_layer_recovery`. -/
def calculate_layer_recovery (loss : ℚ) (layer : ReinsuranceLayer) : ℚ :=
  if loss ≤ 0 then 0
  else if layer.layer_type = "quota_share" then
    loss * layer.cession_rate
  else if layer.layer_type = "surplus" then
    minWithLimit loss layer.limit * layer.cession_rate
  else if layer.layer_type = "excess_of_loss" then
    if loss ≤ layer.attachment_point then 0
    else minWithLimit (loss - layer.attachment_point) layer.limit
  else if layer.layer_type = "stop_loss" then
    if loss ≤ layer.attachment_point then 0
    else minWithLimit ((loss - layer.attachment_point) * layer.cession_rate) layer.limit
  else 0

/-- `sorted(reinsurance_layers, key=lambda x: x.priority)` (stable). -/
def sortLayers (layers : List ReinsuranceLayer) : List ReinsuranceLayer :=
  layers.insertionSort (fun a b => a.priority ≤ b.priority)

/-- The accumulation loop inside `_calculate_reinsurance_recovery`:
carries `(total_recovery, remaining_loss)`; `break` on
`remaining_loss <= 0`; only excess/stop layers erode the remaining loss. -/
def recoveryLoop : List ReinsuranceLayer → ℚ → ℚ → ℚ
  | [], total, _ => total
  | layer :: rest, total, remaining =>
    if remaining ≤ 0 then total
    else
      let r := calculate_layer_recovery remaining layer
      let remaining' :=
        if layer.layer_type = "excess_of_loss" ∨ layer.layer_type = "stop_loss" then
          max 0 (remaining - r)
        else remaining
      recoveryLoop rest (total + r) remaining'

/-- `FinancialCalculator._calculate_reinsurance_recovery`. -/
def calculate_reinsurance_recovery (gross_loss : ℚ) (layers : List ReinsuranceLayer) : ℚ :=
  if layers = [] ∨ gross_loss ≤ 0 then 0
  else min (recoveryLoop (sortLayers layers) 0 gross_loss) gross_loss

/-- `FinancialCalculator._is_within_waiting_period`. -/
def is_within_waiting_period (event_date : Option ℤ) (waiting_period : ℤ) : Bool :=
  match event_date with
  | none => false
  | some d => if waiting_period = 0 then false else decide (d < waiting_period)

/-- Minimum of the values of a non-empty association list
(`min(sub_limits.values())`). -/
def minValues (v : ℚ) (rest : List (String × ℚ)) : ℚ :=
  (rest.map Prod.snd).foldl min v

/-- `FinancialCalculator._apply_sub_limits`: empty (or absent) mapping is a
no-op, otherwise cap at the minimum sub-limit value. -/
def apply_sub_limits (covered_loss : ℚ) (sub_limits : List (String × ℚ)) : ℚ :=
  match sub_limits with
  | [] => covered_loss
  | (_, v) :: rest => min covered_loss (minValues v rest)

/-- The loss-breakdown dictionary built by
`FinancialCalculator._create_loss_breakdown` (the two derived display
fields `retention_ratio` and `coverage_ratio` are omitted: no claim and no
caller in scope reads them). -/
structure LossBreakdown where
  ground_up_loss : ℚ
  covered_loss : ℚ
  insurer_gross_loss : ℚ
  reinsurance_recovery : ℚ
  insurer_net_loss : ℚ
deriving DecidableEq, Repr

/-- `FinancialCalculator.calculate_net_loss` (the scalar per-event path). -/
def calculate_net_loss (ground_up_loss : ℚ) (policy_terms : PolicyTerms)
    (reinsurance_layers : List ReinsuranceLayer) (event_date : Option ℤ) :
    LossBreakdown :=
  if is_within_waiting_period event_date policy_terms.waiting_period then
    ⟨ground_up_loss, 0, 0, 0, 0⟩
  else
    let loss_after_deductible := max 0 (ground_up_loss - policy_terms.deductible)
    let loss_after_coinsurance := loss_after_deductible * (1 - policy_terms.coinsurance)
    let covered0 := min loss_after_coinsurance policy_terms.coverage_limit
    let covered_loss := apply_sub_limits covered0 policy_terms.sub_limits
    let insurer_gross_loss := covered_loss
    let reinsurance_recovery :=
      if reinsurance_layers = [] then 0
      else calculate_reinsurance_recovery insurer_gross_loss reinsurance_layers
    let insurer_net_loss := insurer_gross_loss - reinsurance_recovery
    ⟨ground_up_loss, covered_loss, insurer_gross_loss, reinsurance_recovery,
      insurer_net_loss⟩

/-- `FinancialCalculator.calculate_batch_losses` (the vectorized path).
Applies deductible, coinsurance, limit and minimum sub-limit elementwise,
then — only when layers are present — a single combined quota-share
cession capped at 1; non-quota layers are ignored on this path. -/
def calculate_batch_losses (losses : List ℚ) (policy_terms : PolicyTerms)
    (reinsurance_layers : List ReinsuranceLayer) : List ℚ :=
  let losses_after_deductible := losses.map (fun s => max 0 (s - policy_terms.deductible))
  let losses_after_coinsurance := losses_after_deductible.map
    (fun x => x * (1 - policy_terms.coinsurance))
  let covered0 := losses_after_coinsurance.map (fun x => min x policy_terms.coverage_limit)
  let covered_losses :=
    match policy_terms.sub_limits with
    | [] => covered0
    | (_, v) :: rest => covered0.map (fun x => min x (minValues v rest))
  if reinsurance_layers ≠ [] then
    let quota_share_layers :=
      reinsurance_layers.filter (fun l => l.layer_type = "quota_share")
    if quota_share_layers ≠ [] then
      let total_cession := (quota_share_layers.map ReinsuranceLayer.cession_rate).sum
      covered_losses.map (fun x => x * (1 - min total_cession 1))
    else covered_losses
  else covered_losses

/-- `engine.SimulationEngine._calculate_portfolio_iteration_loss`: every
event hits every policy; per policy the vectorized transform is called
WITHOUT reinsurance layers; the per-policy sums are accumulated.  The
`parameters` argument (which carries `reinsurance_config`) is accepted but
unused by the source body. -/
def calculate_portfolio_iteration_loss (event_severities : List ℚ)
    (portfolio_policies : List (String × PolicyTerms)) : ℚ :=
  (portfolio_policies.map (fun pp =>
    if event_severities.length > 0 then
      (calculate_batch_losses event_severities pp.2 []).sum
    else 0)).sum

/-- `exceptions.py` error taxonomy (each subclass of `SimulationError`
carries a message).  There is no cancellation error kind in the source. -/
inductive SimExc where
  | parameterError (msg : String)
  | distributionError (msg : String)
  | financialCalculationError (msg : String)
  | simulationError (msg : String)
deriving DecidableEq, Repr

/-- The `message` attribute of a raised exception. -/
def SimExc.message : SimExc → String
  | .parameterError m => m
  | .distributionError m => m
  | .financialCalculationError m => m
  | .simulationError m => m

/-- `parameters.EventParameters` (correlation fields omitted: unused by the
engine and by every claim; `correlation_enabled` defaults to False so its
validation branch is inert). -/
structure EventParameters where
  frequency_distribution : String := "poisson"
  frequency_params : List (String × ℚ) := []
  severity_distribution : String := "lognormal"
  severity_params : List (String × ℚ) := []
deriving DecidableEq, Repr

/-- Portfolio-level reinsurance configuration (the
`reinsurance_config['portfolio_level']` shape consumed by
`calculate_portfolio_loss`; `policy_specific` omitted — untouched by the
engine and by every claim). -/
structure ReinsuranceConfig where
  portfolio_level : List ReinsuranceLayer := []
deriving DecidableEq, Repr

/-- `parameters.SimulationParameters` (fields used by the engine and the
validators; `portfolio_id`/`portfolio_config` omitted — never read by the
engine). -/
structure SimulationParameters where
  num_iterations : ℕ := 10000
  random_seed : Option ℤ := none
  event_params : EventParameters := {}
  apply_deductibles : Bool := true
  apply_limits : Bool := true
  apply_reinsurance : Bool := false
  reinsurance_config : Option ReinsuranceConfig := none
  max_events_per_iteration : ℕ := 100
  convergence_check : Bool := false
  convergence_threshold : ℚ := 1/1000
  convergence_window : ℕ := 1000
  batch_size : ℕ := 1000
  parallel_processing : Bool := true
  max_workers : Option ℕ := none
  save_raw_losses : Bool := false
  calculate_percentiles : Bool := true
  percentile_levels : List ℚ :=
    [1/100, 1/20, 1/10, 1/4, 1/2, 3/4, 9/10, 19/20, 99/100, 999/1000]
deriving DecidableEq, Repr

/-- `EventParameters._validate_frequency_params`.  The `isinstance(n, int)`
check on the binomial count is modelled as integrality of the rational. -/
def validate_frequency_params (e : EventParameters) : Except SimExc Unit :=
  if e.frequency_distribution ∉ ["poisson", "negative_binomial", "binomial"] then
    .error (.parameterError "Invalid frequency distribution")
  else if e.frequency_distribution = "poisson" then
    match e.frequency_params.lookup "lambda" with
    | none => .error (.parameterError "Poisson distribution requires lambda parameter")
    | some lam => if lam ≤ 0 then .error (.parameterError "Poisson lambda must be positive")
                  else .ok ()
  else if e.frequency_distribution = "negative_binomial" then
    match e.frequency_params.lookup "n", e.frequency_params.lookup "p" with
    | none, _ => .error (.parameterError "Negative binomial distribution requires n parameter")
    | some _, none => .error (.parameterError "Negative binomial distribution requires p parameter")
    | some n, some p =>
      if n ≤ 0 then .error (.parameterError "Negative binomial n must be positive")
      else if ¬ (0 < p ∧ p ≤ 1) then .error (.parameterError "Negative binomial p must be between 0 and 1")
      else .ok ()
  else
    match e.frequency_params.lookup "n", e.frequency_params.lookup "p" with
    | none, _ => .error (.parameterError "Binomial distribution requires n parameter")
    | some _, none => .error (.parameterError "Binomial distribution requires p parameter")
    | some n, some p =>
      if n ≤ 0 ∨ ¬ n.isInt then .error (.parameterError "Binomial n must be a positive integer")
      else if ¬ (0 ≤ p ∧ p ≤ 1) then .error (.parameterError "Binomial p must be between 0 and 1")
      else .ok ()

/-- `EventParameters._validate_severity_params`. -/
def validate_severity_params (e : EventParameters) : Except SimExc Unit :=
  if e.severity_distribution ∉ ["lognormal", "pareto", "gamma", "exponential", "weibull"] then
    .error (.parameterError "Invalid severity distribution")
  else if e.severity_distribution = "lognormal" then
    match e.severity_params.lookup "mu", e.severity_params.lookup "sigma" with
    | none, _ => .error (.parameterError "Lognormal distribution requires mu parameter")
    | some _, none => .error (.parameterError "Lognormal distribution requires sigma parameter")
    | some _, some sigma =>
      if sigma ≤ 0 then .error (.parameterError "Lognormal sigma must be positive") else .ok ()
  else if e.severity_distribution = "pareto" then
    match e.severity_params.lookup "scale", e.severity_params.lookup "shape" with
    | none, _ => .error (.parameterError "Pareto distribution requires scale parameter")
    | some _, none => .error (.parameterError "Pareto distribution requires shape parameter")
    | some sc, some sh =>
      if sc ≤ 0 ∨ sh ≤ 0 then .error (.parameterError "Pareto scale and shape must be positive") else .ok ()
  else if e.severity_distribution = "gamma" then
    match e.severity_params.lookup "shape", e.severity_params.lookup "scale" with
    | none, _ => .error (.parameterError "Gamma distribution requires shape parameter")
    | some _, none => .error (.parameterError "Gamma distribution requires scale parameter")
    | some sh, some sc =>
      if sh ≤ 0 ∨ sc ≤ 0 then .error (.parameterError "Gamma shape and scale must be positive") else .ok ()
  else if e.severity_distribution = "exponential" then
    match e.severity_params.lookup "scale" with
    | none => .error (.parameterError "Exponential distribution requires scale parameter")
    | some sc => if sc ≤ 0 then .error (.parameterError "Exponential scale must be positive") else .ok ()
  else
    match e.severity_params.lookup "shape", e.severity_params.lookup "scale" with
    | none, _ => .error (.parameterError "Weibull distribution requires shape parameter")
    | some _, none => .error (.parameterError "Weibull distribution requires scale parameter")
    | some sh, some sc =>
      if sh ≤ 0 ∨ sc ≤ 0 then .error (.parameterError "Weibull shape and scale must be positive") else .ok ()

/-- `SimulationParameters._validate_basic_params`. -/
def validate_basic_params (p : SimulationParameters) : Except SimExc Unit :=
  if p.num_iterations ≤ 0 then .error (.parameterError "Number of iterations must be positive")
  else if p.num_iterations > 10000000 then
    .error (.parameterError "Number of iterations exceeds maximum limit (10M)")
  else
    match p.random_seed with
    | some s => if s < 0 ∨ s > 2 ^ 32 - 1 then
                  .error (.parameterError "Random seed must be between 0 and 2^32-1")
                else .ok ()
    | none => .ok ()

/-- `SimulationParameters._validate_financial_params`. -/
def validate_financial_params (p : SimulationParameters) : Except SimExc Unit :=
  if p.apply_reinsurance ∧ p.reinsurance_config = none then
    .error (.parameterError "Reinsurance enabled but no configuration provided")
  else if p.max_events_per_iteration ≤ 0 then
    .error (.parameterError "Max events per iteration must be positive")
  else if p.max_events_per_iteration > 10000 then
    .error (.parameterError "Max events per iteration exceeds reasonable limit")
  else .ok ()

/-- `SimulationParameters._validate_performance_params`. -/
def validate_performance_params (p : SimulationParameters) : Except SimExc Unit :=
  if p.batch_size ≤ 0 then .error (.parameterError "Batch size must be positive")
  else if p.batch_size > p.num_iterations then
    .error (.parameterError "Batch size cannot exceed number of iterations")
  else if (∃ w, p.max_workers = some w ∧ w ≤ 0) then
    .error (.parameterError "Max workers must be positive")
  else if p.convergence_check ∧ p.convergence_threshold ≤ 0 then
    .error (.parameterError "Convergence threshold must be positive")
  else if p.convergence_check ∧ p.convergence_window ≤ 0 then
    .error (.parameterError "Convergence window must be positive")
  else if p.convergence_check ∧ p.convergence_window ≥ p.num_iterations then
    .error (.parameterError "Convergence window must be less than total iterations")
  else .ok ()

/-- `SimulationParameters._validate_output_params`. -/
def validate_output_params (p : SimulationParameters) : Except SimExc Unit :=
  if p.calculate_percentiles ∧ ∃ q ∈ p.percentile_levels, ¬ (0 ≤ q ∧ q ≤ 1) then
    .error (.parameterError "Percentile must be between 0 and 1")
  else .ok ()

/-- `EventParameters.validate`: frequency then severity checks (the
correlation check is inert for the default `correlation_enabled = False`,
the only configuration the engine claims touch). -/
def EventParameters.validate (e : EventParameters) : Except SimExc Unit := do
  validate_frequency_params e
  validate_severity_params e

/-- `SimulationParameters._validate_event_params`: re-wraps any event-level
error as `ParameterError("Event parameter validation failed: …")`. -/
def validate_event_params (p : SimulationParameters) : Except SimExc Unit :=
  match p.event_params.validate with
  | .error e =>
    .error (.parameterError ("Event parameter validation failed: " ++ e.message))
  | .ok () => .ok ()

/-- `SimulationParameters.validate` (the `_validate_event_params` step
re-wraps the event-level `ParameterError`; the portfolio step is a pass). -/
def SimulationParameters.validate (p : SimulationParameters) : Except SimExc Unit := do
  validate_basic_params p
  validate_event_params p
  validate_financial_params p
  validate_performance_params p
  validate_output_params p

/-- `DistributionFactory.create_frequency_distribution`: unknown name is a
`DistributionError`; a known name re-runs the class's own parameter
validation (`validate_params`), whose checks coincide with
`_validate_frequency_params` but raise `DistributionError`. -/
def create_frequency_distribution (e : EventParameters) : Except SimExc Unit :=
  if e.frequency_distribution ∉ ["poisson", "negative_binomial", "binomial"] then
    .error (.distributionError "Unknown frequency distribution")
  else
    match validate_frequency_params e with
    | .error exc => .error (.distributionError exc.message)
    | .ok () => .ok ()

/-- `DistributionFactory.create_severity_distribution`. -/
def create_severity_distribution (e : EventParameters) : Except SimExc Unit :=
  if e.severity_distribution ∉ ["lognormal", "pareto", "gamma", "exponential", "weibull"] then
    .error (.distributionError "Unknown severity distribution")
  else
    match validate_severity_params e with
    | .error exc => .error (.distributionError exc.message)
    | .ok () => .ok ()

/-- Linear interpolation between order statistics of an ascending sorted
list at virtual index `pos` — the `numpy` default (`linear`) method used by
`np.percentile`/`np.median`: with `k = ⌊pos⌋` and `g = pos − k`, the value
is `s[k] + g·(s[min(k+1, n−1)] − s[k])`. -/
def interpSorted (s : List ℚ) (pos : ℚ) : ℚ :=
  let k : ℕ := (Int.floor pos).toNat
  let a := s.getD k 0
  let b := s.getD (min (k + 1) (s.length - 1)) 0
  a + (pos - (Int.floor pos : ℤ)) * (b - a)

/-- `np.percentile(values, q)`: sort ascending and interpolate at virtual
index `q/100 · (n−1)`. -/
def npPercentile (values : List ℚ) (q : ℚ) : ℚ :=
  let s := values.insertionSort (fun a b => a ≤ b)
  interpSorted s (q / 100 * ((values.length : ℚ) - 1))

/-- `RiskMetricsCalculator._clean_loss_data`: drop non-finite values (none
exist over `ℚ`) and negatives. -/
def clean_loss_data (losses : List ℚ) : List ℚ :=
  losses.filter (fun x => 0 ≤ x)

/-- `RiskMetricsCalculator._calculate_var` at one confidence level:
`np.percentile(losses, confidence_level * 100)`. -/
def calculate_var (losses : List ℚ) (confidence_level : ℚ) : ℚ :=
  npPercentile losses (confidence_level * 100)

/-- `RiskMetricsCalculator._calculate_tvar` at one confidence level: mean
of the losses `≥ VaR`; the VaR itself when that tail is empty. -/
def calculate_tvar (losses : List ℚ) (confidence_level : ℚ) : ℚ :=
  let var_threshold := npPercentile losses (confidence_level * 100)
  let tail_losses := losses.filter (fun x => var_threshold ≤ x)
  if tail_losses.length > 0 then tail_losses.sum / tail_losses.length
  else var_threshold

/-- The claim-relevant slice of `metrics.RiskMetrics`.  Fields whose values
are irrational over exact arithmetic (`standard_deviation`, `skewness`,
`coefficient_of_variation`) or purely presentational (`mode_loss`,
`histogram_data`, `exceedance_curve`, `kurtosis`, named `percentiles`)
are omitted — no claim reads them. -/
structure RiskMetrics where
  expected_loss : ℚ
  variance : ℚ
  minimum_loss : ℚ
  maximum_loss : ℚ
  var_95 : ℚ
  var_99 : ℚ
  var_99_9 : ℚ
  tvar_95 : ℚ
  tvar_99 : ℚ
  tvar_99_9 : ℚ
  probability_of_loss : ℚ
  median_loss : ℚ
deriving DecidableEq, Repr

/-- Sample variance with `ddof=1` (`np.var(l, ddof=1)`); over `ℚ` the
`n = 1` division-by-zero (numpy `nan`) collapses to `0` — no claim touches
a one-element vector's variance. -/
def sampleVariance (l : List ℚ) : ℚ :=
  let n : ℚ := l.length
  let m := l.sum / n
  (l.map (fun x => (x - m) ^ 2)).sum / (n - 1)

/-- `RiskMetricsCalculator.calculate_metrics`: empty-input and
post-cleaning-empty failures are `SimulationError`s; otherwise the
statistics are computed on the cleaned data. -/
def calculate_metrics (losses : List ℚ) : Except SimExc RiskMetrics :=
  if losses.length = 0 then
    .error (.simulationError "Cannot calculate metrics from empty loss array")
  else
    let cleaned := clean_loss_data losses
    if h : cleaned.length = 0 then
      .error (.simulationError "No valid loss data after cleaning")
    else
      let expected_loss := cleaned.sum / cleaned.length
      .ok {
        expected_loss := expected_loss
        variance := sampleVariance cleaned
        minimum_loss := cleaned.foldl min (cleaned.head (by simpa using h))
        maximum_loss := cleaned.foldl max (cleaned.head (by simpa using h))
        var_95 := calculate_var cleaned (19/20)
        var_99 := calculate_var cleaned (99/100)
        var_99_9 := calculate_var cleaned (999/1000)
        tvar_95 := calculate_tvar cleaned (19/20)
        tvar_99 := calculate_tvar cleaned (99/100)
        tvar_99_9 := calculate_tvar cleaned (999/1000)
        probability_of_loss := ((cleaned.filter (fun x => 0 < x)).length : ℚ) / cleaned.length
        median_loss := npPercentile cleaned 50 }

/-- `engine._run_simulation_batch`'s seed derivation:
`parameters.random_seed + start_idx if parameters.random_seed else None`.
Python truthiness makes BOTH `None` and `0` fall through to `None`
(an OS-entropy-seeded `RandomState`). -/
def derive_batch_seed (random_seed : Option ℤ) (start_idx : ℕ) : Option ℤ :=
  match random_seed with
  | none => none
  | some s => if s ≠ 0 then some (s + start_idx) else none

/-- The scalar-seed domain `np.random.RandomState(seed)` accepts. -/
def random_state_accepts (s : ℤ) : Bool :=
  decide (0 ≤ s ∧ s ≤ 2 ^ 32 - 1)

/-- Batch layout of `_run_parallel_simulation`:
`for start_idx in range(0, num_iterations, batch_size)` with
`end_idx = min(start_idx + batch_size, num_iterations)`; `fuel` bounds the
recursion (`num_iterations` steps always suffice for `batch_size ≥ 1`). -/
def build_batches (fuel start n bs : ℕ) : List (ℕ × ℕ) :=
  match fuel with
  | 0 => []
  | fuel' + 1 =>
    if start < n then (start, min (start + bs) n) :: build_batches fuel' (start + bs) n bs
    else []

/-- The engine's batch list for `n` iterations and batch size `bs`. -/
def batches (n bs : ℕ) : List (ℕ × ℕ) :=
  build_batches n 0 n bs

/-- The per-batch seed-derivation determinism property the spec's RNG
pipeline requires of a parallel run: every contiguous batch must receive a
defined derived seed acceptable to `RandomState`. -/
def parallel_seed_derivation_deterministic (seed : ℤ) (n bs : ℕ) : Prop :=
  ∀ se ∈ batches n bs, ∃ s', derive_batch_seed (some seed) se.1 = some s' ∧
    random_state_accepts s' = true

instance (seed : ℤ) (n bs : ℕ) :
    Decidable (parallel_seed_derivation_deterministic seed n bs) := by
  unfold parallel_seed_derivation_deterministic
  infer_instance

/-- The sampler streams, abstracted: `eventCount i` is the frequency draw
of iteration `i` in stream order, and `severities i k` the list the
severity sampler returns for a request of `k` draws at iteration `i`.
This abstracts the `RandomState`-backed samplers of `distributions.py`,
whose only properties the claims use are that severities are non-negative
reals. -/
structure SamplerOracle where
  eventCount : ℕ → ℕ
  severities : ℕ → ℕ → List ℚ

/-- One iteration of the engine loop (shared verbatim between
`_execute_simulation`'s sequential body and `_run_simulation_batch`):
draw the event count, clip it at `max_events_per_iteration`, draw that many
severities, and either aggregate ground-up (`np.sum`) or run the portfolio
transform. -/
def iteration_loss (oracle : SamplerOracle) (params : SimulationParameters)
    (portfolio_policies : List (String × PolicyTerms)) (i : ℕ) : ℚ :=
  let num_events := oracle.eventCount i
  if num_events > 0 then
    let clipped := min num_events params.max_events_per_iteration
    let event_severities := oracle.severities i clipped
    if portfolio_policies ≠ [] then
      calculate_portfolio_iteration_loss event_severities portfolio_policies
    else event_severities.sum
  else 0

/-- The sequential loop of `_execute_simulation`: the `should_stop` flag is
polled at the top of each iteration (`stop i` is its value observed before
iteration `i` runs); on a `True` read the loop breaks and the array is
truncated to the completed prefix.  The returned list IS
`aggregate_losses[:current_iteration]`. -/
def sequential_losses (oracle : SamplerOracle) (params : SimulationParameters)
    (portfolio_policies : List (String × PolicyTerms)) (stop : ℕ → Bool) :
    ℕ → ℕ → List ℚ
  | _, 0 => []
  | i, fuel + 1 =>
    if stop i then []
    else iteration_loss oracle params portfolio_policies i ::
      sequential_losses oracle params portfolio_policies stop (i + 1) fuel

/-- `_run_simulation_batch` for the batch `[start_idx, end_idx)`: a fresh
batch-local stream (`batchOracle start_idx`, standing for the
`RandomState` built from `derive_batch_seed`) drives `end_idx − start_idx`
iterations. -/
def run_simulation_batch (batchOracle : ℕ → SamplerOracle)
    (params : SimulationParameters)
    (portfolio_policies : List (String × PolicyTerms)) (start_idx end_idx : ℕ) :
    List ℚ :=
  (List.range (end_idx - start_idx)).map
    (iteration_loss (batchOracle start_idx) params portfolio_policies)

/-- `_run_parallel_simulation` without cancellation: every batch's result
lands in its own contiguous slot `[start, end)` of the output array and
`completed_iterations` sums the batch sizes, so the assembled array is the
batch results joined in layout order (the `as_completed` arrival order
only affects progress reporting, not slot placement). -/
def parallel_losses (batchOracle : ℕ → SamplerOracle)
    (params : SimulationParameters)
    (portfolio_policies : List (String × PolicyTerms)) : List ℚ :=
  (batches params.num_iterations params.batch_size).flatMap
    (fun se => run_simulation_batch batchOracle params portfolio_policies se.1 se.2)

/-- Aggregate loss data returned by `_execute_simulation`:
`(aggregate_losses[:completed], completed_iterations)`. -/
def execute_simulation (oracle : SamplerOracle) (batchOracle : ℕ → SamplerOracle)
    (params : SimulationParameters)
    (portfolio_policies : List (String × PolicyTerms)) (stop : ℕ → Bool) :
    Except SimExc (List ℚ × ℕ) := do
  _ ← create_frequency_distribution params.event_params
  _ ← create_severity_distribution params.event_params
  if params.parallel_processing ∧ params.max_workers ≠ some 1 then
    let losses := parallel_losses batchOracle params portfolio_policies
    return (losses, losses.length)
  else
    let losses := sequential_losses oracle params portfolio_policies stop 0
      params.num_iterations
    return (losses, losses.length)

/-- The results dictionary assembled by `run_simulation` (claim-relevant
entries). -/
structure SimResults where
  total_iterations : ℕ
  aggregate_losses : List ℚ
  completed_iterations : ℕ
  risk_metrics : RiskMetrics
deriving Repr

/-- The body of `SimulationEngine.run_simulation` before its `except`
clause: validate, execute, compute metrics. -/
def run_simulation_inner (oracle : SamplerOracle) (batchOracle : ℕ → SamplerOracle)
    (params : SimulationParameters)
    (portfolio_policies : List (String × PolicyTerms)) (stop : ℕ → Bool) :
    Except SimExc SimResults := do
  _ ← params.validate
  let (losses, completed) ← execute_simulation oracle batchOracle params
    portfolio_policies stop
  let metrics ←
    if losses.length = 0 then
      .error (.simulationError "No simulation results to analyze")
    else calculate_metrics losses
  return { total_iterations := params.num_iterations
           aggregate_losses := losses
           completed_iterations := completed
           risk_metrics := metrics }

/-- `SimulationEngine.run_simulation`: the blanket
`except Exception as e: raise SimulationError(f"Simulation execution
failed: {str(e)}")` boundary — every escaping error, of any kind in the
taxonomy, is re-raised as a base `SimulationError` wrapping the original
message. -/
def run_simulation (oracle : SamplerOracle) (batchOracle : ℕ → SamplerOracle)
    (params : SimulationParameters)
    (portfolio_policies : List (String × PolicyTerms)) (stop : ℕ → Bool) :
    Except SimExc SimResults :=
  match run_simulation_inner oracle batchOracle params portfolio_policies stop with
  | .ok r => .ok r
  | .error e => .error (.simulationError ("Simulation execution failed: " ++ e.message))

/-! Spec-side definitions.  The definitions below transcribe the SPEC's
wording (not the source) and exist solely to be compared against the
source embeddings above in the refinement/equivalence theorems. -/

/-- Modelled from the spec: §4.3 portfolio-mode steps 2–5 for one event
severity outside any waiting period — deductible, coinsurance, limit, then
the minimum sub-limit when sub-limits are present. -/
def spec_covered_loss (s : ℚ) (p : PolicyTerms) : ℚ :=
  let covered := min (max 0 (s - p.deductible) * (1 - p.coinsurance)) p.coverage_limit
  match p.sub_limits with
  | [] => covered
  | (_, v) :: rest => min covered (minValues v rest)

/-- Cap a quantity at an optional limit (the spec's "optional positive
`limit`": absent means unbounded). -/
def specCap (x : ℚ) (lim : Option ℚ) : ℚ :=
  match lim with
  | none => x
  | some l => min x l

/-- Modelled from the spec, LITERALLY as the claim states the per-kind
recoveries — in particular `stop_loss` recovers
`min((loss − attachment) · cession_rate, limit)` with no guard for
`loss ≤ attachment`. -/
def spec_layer_recovery_literal (loss : ℚ) (l : ReinsuranceLayer) : ℚ :=
  if l.layer_type = "quota_share" then loss * l.cession_rate
  else if l.layer_type = "surplus" then specCap loss l.limit * l.cession_rate
  else if l.layer_type = "excess_of_loss" then
    specCap (max 0 (loss - l.attachment_point)) l.limit
  else if l.layer_type = "stop_loss" then
    specCap ((loss - l.attachment_point) * l.cession_rate) l.limit
  else 0

/-- The spec's per-kind recoveries with the amendment the code forces:
`stop_loss` (like `excess_of_loss`) recovers nothing when the working loss
is at or below the attachment point. -/
def spec_layer_recovery (loss : ℚ) (l : ReinsuranceLayer) : ℚ :=
  if l.layer_type = "quota_share" then loss * l.cession_rate
  else if l.layer_type = "surplus" then specCap loss l.limit * l.cession_rate
  else if l.layer_type = "excess_of_loss" then
    specCap (max 0 (loss - l.attachment_point)) l.limit
  else if l.layer_type = "stop_loss" then
    if loss ≤ l.attachment_point then 0
    else specCap ((loss - l.attachment_point) * l.cession_rate) l.limit
  else 0

/-- Modelled from the spec: walk the (priority-sorted) layers carrying a
working loss; quota share and surplus leave it unchanged, excess-of-loss
and stop-loss subtract their recovery; return the summed recoveries. -/
def spec_recoveries (f : ℚ → ReinsuranceLayer → ℚ) :
    List ReinsuranceLayer → ℚ → ℚ
  | [], _ => 0
  | l :: rest, w =>
    let r := f w l
    let w' :=
      if l.layer_type = "excess_of_loss" ∨ l.layer_type = "stop_loss" then w - r
      else w
    r + spec_recoveries f rest w'

/-- Modelled from the spec: "Final net insurer loss = initial aggregate −
Σ recoveries, floored at zero and capped at the initial aggregate", layers
taken in ascending priority; parametrized by the per-layer recovery
formula (literal or amended). -/
def spec_net_loss_with (f : ℚ → ReinsuranceLayer → ℚ)
    (gross : ℚ) (layers : List ReinsuranceLayer) : ℚ :=
  min (max (gross - spec_recoveries f (sortLayers layers) gross) 0) gross

/-- Spec net loss with the claim's literal per-kind formulas. -/
def spec_net_loss_literal (gross : ℚ) (layers : List ReinsuranceLayer) : ℚ :=
  spec_net_loss_with spec_layer_recovery_literal gross layers

/-- Spec net loss with the amended (guarded stop-loss) formulas. -/
def spec_net_loss (gross : ℚ) (layers : List ReinsuranceLayer) : ℚ :=
  spec_net_loss_with spec_layer_recovery gross layers

/-- The constraints `ReinsuranceLayer.__post_init__` actually enforces
(everything a constructed layer is guaranteed to satisfy). -/
def LayerValid (l : ReinsuranceLayer) : Prop :=
  l.layer_type ∈ validLayerTypes ∧ 0 ≤ l.attachment_point ∧
    (∀ lim, l.limit = some lim → 0 < lim) ∧
    0 ≤ l.cession_rate ∧ l.cession_rate ≤ 1

/-- The constraints `PolicyTerms.__post_init__` actually enforces, plus
non-negative sub-limit values (which the source does NOT validate — the
spec's data model requires positive sub-limit bounds). -/
def PolicyOk (p : PolicyTerms) : Prop :=
  0 < p.coverage_limit ∧ 0 ≤ p.deductible ∧
    0 ≤ p.coinsurance ∧ p.coinsurance ≤ 1 ∧
    ∀ kv ∈ p.sub_limits, 0 ≤ kv.2

/-- The calculator's default confidence levels (`[0.95, 0.99, 0.999]`). -/
def confidence_levels : List ℚ := [19/20, 99/100, 999/1000]

/-! Concrete values used by the end-to-end scenario theorems. -/

/-- The S2 policy: limit 1,000,000, deductible 10,000, coinsurance 0. -/
def s2_policy : PolicyTerms :=
  { policy_id := "policy_1", coverage_limit := 1000000, deductible := 10000 }

/-- The S2 event severities for one iteration. -/
def s2_severities : List ℚ := [5000, 50000, 1500000]

/-- A 30% quota-share layer (scenario S3). -/
def qs30 : ReinsuranceLayer := { layer_type := "quota_share", cession_rate := 3/10 }

/-- A stop-loss layer whose attachment sits above the loss fed to it. -/
def stop_above : ReinsuranceLayer :=
  { layer_type := "stop_loss", attachment_point := 10, limit := some 100,
    cession_rate := 1/2, priority := 1 }

/-- A 10% quota-share layer at priority 2. -/
def qs10 : ReinsuranceLayer :=
  { layer_type := "quota_share", cession_rate := 1/10, priority := 2 }

/-! Helper lemmas. -/

/-- `PolicyTerms.post_init` succeeds exactly on the constraints the source
checks (which do NOT include sub-limit positivity or `waiting_period ≥ 0`). -/
theorem policy_post_init_ok_iff (p : PolicyTerms) :
    PolicyTerms.post_init p = .ok p ↔
      (0 < p.coverage_limit ∧ 0 ≤ p.deductible ∧ 0 ≤ p.coinsurance ∧
        p.coinsurance ≤ 1 ∧ ∀ a, p.policy_aggregate = some a → 0 < a) := by
  unfold PolicyTerms.post_init
  rcases hpa : p.policy_aggregate with _ | a <;>
    simp only [hpa] <;> split_ifs <;> simp_all

/-- `ReinsuranceLayer.post_init` succeeds exactly on the constraints the
source checks (which do NOT include `priority ≥ 1`). -/
theorem layer_post_init_ok_iff (l : ReinsuranceLayer) :
    ReinsuranceLayer.post_init l = .ok l ↔ LayerValid l := by
  unfold ReinsuranceLayer.post_init LayerValid
  rcases hl : l.limit with _ | lim <;>
    simp only [hl] <;> split_ifs <;> simp_all

/-- Valid Poisson/Lognormal event parameters used by concrete runs. -/
def pl_event_params : EventParameters :=
  { frequency_params := [("lambda", 5/2)],
    severity_params := [("mu", 10), ("sigma", 3/2)] }

/-- A spec-valid parallel job with seed 0. -/
def params_seed0 : SimulationParameters :=
  { num_iterations := 5000, random_seed := some 0, batch_size := 1000,
    event_params := pl_event_params }

/-- A spec-valid parallel job with the maximal accepted seed. -/
def params_seed_max : SimulationParameters :=
  { num_iterations := 5000, random_seed := some (2 ^ 32 - 1), batch_size := 1000,
    event_params := pl_event_params }

/-- C1: the determinism guarantee fails at the edges of the accepted seed
range.  Seed 0 passes validation, yet the batch-seed derivation
`seed + start_idx if seed else None` is Python-truthy-false at 0, so every
parallel batch falls back to an OS-entropy `RandomState` and two runs
differ; and at the maximal accepted seed the derived seed
`2^32 − 1 + 1000` overflows the range `RandomState` accepts.  For interior
seeds (e.g. 42) the derivation is the deterministic mixing the spec
requires. -/
theorem seed_truthiness_breaks_parallel_determinism :
    SimulationParameters.validate params_seed0 = .ok () ∧
      derive_batch_seed (some 0) 0 = none ∧
      ¬ parallel_seed_derivation_deterministic 0 5000 1000 ∧
      parallel_seed_derivation_deterministic 42 5000 1000 ∧
      SimulationParameters.validate params_seed_max = .ok () ∧
      derive_batch_seed (some (2 ^ 32 - 1)) 1000 = some (2 ^ 32 - 1 + 1000) ∧
      random_state_accepts (2 ^ 32 - 1 + 1000) = false := by
  refine ⟨?_, by decide, by decide, by decide, ?_, by decide, by decide⟩ <;>
    · simp [SimulationParameters.validate, validate_basic_params,
        validate_event_params, EventParameters.validate, validate_frequency_params,
        validate_severity_params, validate_financial_params,
        validate_performance_params, validate_output_params, pl_event_params,
        params_seed0, params_seed_max, Bind.bind, Except.bind, List.lookup]
      norm_num

/-- A policy the validator accepts although it violates the spec's data
model: negative waiting period and a negative sub-limit bound. -/
def bad_policy : PolicyTerms :=
  { policy_id := "p_bad", coverage_limit := 1000, sub_limits := [("x", -5)],
    waiting_period := -1 }

/-- A layer the validator accepts although its priority is below 1. -/
def bad_layer : ReinsuranceLayer :=
  { layer_type := "quota_share", cession_rate := 1/2, priority := 0 }

/-- C9 counterexample: construction does NOT fail on every violated stated
constraint — a policy with `waiting_period = −1` and sub-limit `−5`, and a
layer with `priority = 0`, are all accepted by `__post_init__`. -/
theorem post_init_accepts_invalid :
    PolicyTerms.post_init bad_policy = .ok bad_policy ∧
      bad_policy.waiting_period < 0 ∧
      (-5 : ℚ) ∈ bad_policy.sub_limits.map Prod.snd ∧ (-5 : ℚ) < 0 ∧
      ReinsuranceLayer.post_init bad_layer = .ok bad_layer ∧
      bad_layer.priority < 1 := by
  refine ⟨?_, by decide, by simp [bad_policy], by norm_num, ?_, by decide⟩
  · simp [PolicyTerms.post_init, bad_policy]
  · simp [ReinsuranceLayer.post_init, bad_layer, validLayerTypes]
    norm_num

/-- C9 (amended): construction of a `PolicyTerms` fails iff
`coverage_limit ≤ 0`, `deductible < 0`, `coinsurance ∉ [0,1]`, or a given
`policy_aggregate ≤ 0`; construction of a `ReinsuranceLayer` fails iff the
kind is not among the four variants, `attachment_point < 0`, a given
`limit ≤ 0`, or `cession_rate ∉ [0,1]`.  Sub-limit positivity,
`waiting_period ≥ 0` and `priority ≥ 1` are NOT validated. -/
theorem post_init_iff_enforced (p : PolicyTerms) (l : ReinsuranceLayer) :
    (PolicyTerms.post_init p = .ok p ↔
      (0 < p.coverage_limit ∧ 0 ≤ p.deductible ∧ 0 ≤ p.coinsurance ∧
        p.coinsurance ≤ 1 ∧ ∀ a, p.policy_aggregate = some a → 0 < a)) ∧
    (ReinsuranceLayer.post_init l = .ok l ↔ LayerValid l) :=
  ⟨policy_post_init_ok_iff p, layer_post_init_ok_iff l⟩

/-- C2 counterexample: in scenario S2 the code's net iteration loss is
1,040,000 on both the scalar and the vectorized path — not the claimed
1,030,000 (the deductible is applied before the limit, so the 1,500,000
event pays the full 1,000,000 limit, not 990,000). -/
theorem s2_net_loss_is_1040000 :
    (s2_severities.map
        (fun s => (calculate_net_loss s s2_policy [] none).insurer_net_loss)).sum
        = 1040000 ∧
      (calculate_batch_losses s2_severities s2_policy []).sum = 1040000 ∧
      (1040000 : ℚ) ≠ 1030000 := by
  refine ⟨?_, ?_, by norm_num⟩ <;>
    · simp [calculate_net_loss, calculate_batch_losses, apply_sub_limits,
        is_within_waiting_period, s2_severities, s2_policy]
      norm_num

/-- C2 (amended): outside any waiting period the per-event covered loss is
`min(max(0, s − deductible)·(1 − coinsurance), coverage_limit)`, further
capped at the minimum sub-limit when sub-limits are non-empty; and in the
literal S2 scenario the net iteration loss is exactly 1,040,000 (the claim's
1,030,000 presumes the limit is applied to the ground-up loss before the
deductible, which is not what the cascade — or the claim's own formula —
does). -/
theorem covered_loss_formula_s2 :
    (∀ (s : ℚ) (p : PolicyTerms) (ed : Option ℤ),
        is_within_waiting_period ed p.waiting_period = false →
        (calculate_net_loss s p [] ed).covered_loss = spec_covered_loss s p) ∧
      (s2_severities.map
          (fun s => (calculate_net_loss s s2_policy [] none).insurer_net_loss)).sum
          = 1040000 := by
  constructor
  · intro s p ed h
    rcases hs : p.sub_limits with _ | ⟨⟨k, v⟩, rest⟩ <;>
      simp [calculate_net_loss, h, spec_covered_loss, apply_sub_limits, hs]
  · simp [calculate_net_loss, apply_sub_limits, is_within_waiting_period,
      s2_severities, s2_policy]
    norm_num

/-- Witness for `covered_loss_formula_s2`: the formula evaluated at the
over-limit S2 event. -/
theorem covered_loss_formula_s2_witness :
    is_within_waiting_period none s2_policy.waiting_period = false ∧
      (calculate_net_loss 1500000 s2_policy [] none).covered_loss =
        spec_covered_loss 1500000 s2_policy :=
  ⟨rfl, covered_loss_formula_s2.1 1500000 s2_policy none rfl⟩

/-- C5 counterexample: with a quota-share layer configured, the engine's
iteration scalar equals the gross aggregate 1,040,000, while the net
insurer loss after applying the configured layer to the aggregate would be
728,000 — the stored value is the gross, not the net. -/
theorem portfolio_iteration_ignores_reinsurance :
    calculate_portfolio_iteration_loss s2_severities [("policy_1", s2_policy)]
        = 1040000 ∧
      1040000 - calculate_reinsurance_recovery 1040000 [qs30] = 728000 ∧
      (1040000 : ℚ) ≠ 728000 := by
  refine ⟨?_, ?_, by norm_num⟩
  · simp [calculate_portfolio_iteration_loss, calculate_batch_losses,
      s2_severities, s2_policy]
    norm_num
  · simp [calculate_reinsurance_recovery, sortLayers, List.insertionSort,
      List.orderedInsert, recoveryLoop, calculate_layer_recovery, qs30]
    norm_num

/-- C5 (amended): the engine's portfolio iteration scalar is the insurer
GROSS aggregate — the sum over policies of the vectorized per-policy
transform invoked with NO reinsurance layers; configured portfolio-level
reinsurance is never applied on this path. -/
theorem portfolio_iteration_is_gross (sev : List ℚ)
    (policies : List (String × PolicyTerms)) :
    calculate_portfolio_iteration_loss sev policies =
      (policies.map (fun pp => (calculate_batch_losses sev pp.2 []).sum)).sum := by
  unfold calculate_portfolio_iteration_loss
  congr 1
  apply List.map_congr_left
  intro pp _
  rcases sev with _ | ⟨s, ss⟩
  · rcases hs : pp.2.sub_limits with _ | ⟨⟨k, v⟩, rest⟩ <;>
      simp [calculate_batch_losses, hs]
  · simp

/-- `minWithLimit` never exceeds its input. -/
theorem minWithLimit_le (x : ℚ) (lim : Option ℚ) : minWithLimit x lim ≤ x := by
  rcases lim with _ | l <;> simp [minWithLimit]
  split_ifs <;> simp

/-- `minWithLimit` of a non-negative input stays non-negative when any
present limit is positive. -/
theorem minWithLimit_nonneg {x : ℚ} {lim : Option ℚ} (hx : 0 ≤ x)
    (hlim : ∀ l, lim = some l → 0 < l) : 0 ≤ minWithLimit x lim := by
  rcases lim with _ | l
  · simpa [minWithLimit] using hx
  · have hl : 0 < l := hlim l rfl
    simp only [minWithLimit]
    split_ifs
    · exact hx
    · exact le_min hx hl.le

/-- Capping zero at a positive (or absent) limit gives zero. -/
theorem minWithLimit_eq_zero {lim : Option ℚ}
    (hlim : ∀ l, lim = some l → 0 < l) : minWithLimit 0 lim = 0 := by
  rcases lim with _ | l
  · rfl
  · have hl : 0 < l := hlim l rfl
    simp only [minWithLimit]
    split_ifs
    · rfl
    · exact min_eq_left hl.le

/-- With a positive (hence non-zero) limit, the spec's cap and the code's
Python-truthy cap agree. -/
theorem specCap_eq_minWithLimit {x : ℚ} {lim : Option ℚ}
    (hlim : ∀ l, lim = some l → 0 < l) : specCap x lim = minWithLimit x lim := by
  rcases lim with _ | l
  · rfl
  · have hl : 0 < l := hlim l rfl
    simp [specCap, minWithLimit, hl.ne.symm]

/-- The four possible `layer_type` strings of a valid layer. -/
theorem layer_type_cases {l : ReinsuranceLayer} (h : LayerValid l) :
    l.layer_type = "quota_share" ∨ l.layer_type = "surplus" ∨
      l.layer_type = "excess_of_loss" ∨ l.layer_type = "stop_loss" := by
  have := h.1
  simpa [validLayerTypes] using this

/-- A valid layer's recovery from a non-negative working loss is
non-negative. -/
theorem layer_recovery_nonneg {l : ReinsuranceLayer} {w : ℚ}
    (h : LayerValid l) (hw : 0 ≤ w) : 0 ≤ calculate_layer_recovery w l := by
  obtain ⟨-, ha, hlim, hc0, hc1⟩ := h
  unfold calculate_layer_recovery
  split_ifs with h0 h1 h2 h3 h4 h5 h6
  · rfl
  · exact mul_nonneg hw hc0
  · exact mul_nonneg (minWithLimit_nonneg hw hlim) hc0
  · rfl
  · exact minWithLimit_nonneg (by push_neg at h4; linarith) hlim
  · rfl
  · exact minWithLimit_nonneg (mul_nonneg (by push_neg at h6; linarith) hc0) hlim
  · rfl


/-- An eroding (excess/stop) valid layer never recovers more than the
working loss. -/
theorem layer_recovery_le {l : ReinsuranceLayer} {w : ℚ}
    (h : LayerValid l) (hw : 0 ≤ w)
    (ht : l.layer_type = "excess_of_loss" ∨ l.layer_type = "stop_loss") :
    calculate_layer_recovery w l ≤ w := by
  obtain ⟨-, ha, hlim, hc0, hc1⟩ := h
  unfold calculate_layer_recovery
  split_ifs with h0 h1 h2 h3 h4 h5 h6
  · linarith
  · rcases ht with ht | ht <;> simp_all
  · rcases ht with ht | ht <;> simp_all
  · linarith
  · have := minWithLimit_le (w - l.attachment_point) l.limit
    linarith
  · linarith
  · have := minWithLimit_le ((w - l.attachment_point) * l.cession_rate) l.limit
    nlinarith
  · linarith

/-- For a valid layer and non-negative working loss, the code's per-layer
recovery coincides with the spec's amended per-kind recovery. -/
theorem layer_recovery_eq_spec {l : ReinsuranceLayer} {w : ℚ}
    (h : LayerValid l) (hw : 0 ≤ w) :
    calculate_layer_recovery w l = spec_layer_recovery w l := by
  have hlim := h.2.2.1
  have ha := h.2.1
  rcases layer_type_cases h with ht | ht | ht | ht <;>
    simp only [calculate_layer_recovery, spec_layer_recovery, ht] <;> simp
  · intro h0
    left
    linarith
  · rw [specCap_eq_minWithLimit hlim]
    split_ifs with h0
    · have hw0 : w = 0 := le_antisymm h0 hw
      subst hw0
      rw [minWithLimit_eq_zero hlim]
      ring
    · rfl
  · rw [specCap_eq_minWithLimit hlim]
    split_ifs with h0 h1
    · have hw0 : w = 0 := le_antisymm h0 hw
      subst hw0
      rw [show (0 : ℚ) ⊔ (0 - l.attachment_point) = 0 from max_eq_left (by linarith),
        minWithLimit_eq_zero hlim]
    · rw [show (0 : ℚ) ⊔ (w - l.attachment_point) = 0 from max_eq_left (by linarith),
        minWithLimit_eq_zero hlim]
    · rw [show (0 : ℚ) ⊔ (w - l.attachment_point) = w - l.attachment_point from
        max_eq_right (by linarith)]
  · rw [specCap_eq_minWithLimit hlim]
    split_ifs with h0 h1 <;> first | rfl | linarith

/-- The code's per-layer recovery from a non-positive working loss is 0. -/
theorem calculate_layer_recovery_nonpos {w : ℚ} (l : ReinsuranceLayer)
    (hw : w ≤ 0) : calculate_layer_recovery w l = 0 := by
  unfold calculate_layer_recovery
  rw [if_pos hw]

/-- Once the working loss hits zero, every remaining valid layer recovers
zero in the spec process. -/
theorem spec_recoveries_at_zero :
    ∀ ls : List ReinsuranceLayer, (∀ l ∈ ls, LayerValid l) →
      spec_recoveries spec_layer_recovery ls 0 = 0 := by
  intro ls
  induction ls with
  | nil => intro _; rfl
  | cons l rest ih =>
    intro hv
    have hvl : LayerValid l := hv l (by simp)
    have hr : spec_layer_recovery 0 l = 0 := by
      rw [← layer_recovery_eq_spec hvl le_rfl, calculate_layer_recovery_nonpos l le_rfl]
    simp only [spec_recoveries, hr]
    have : (0 : ℚ) - 0 = 0 := by ring
    split_ifs <;>
      simp_all [ih (fun x hx => hv x (by simp [hx]))]

/-- Sum of spec recoveries from a non-negative working loss is
non-negative, for valid layers. -/
theorem spec_recoveries_nonneg :
    ∀ (ls : List ReinsuranceLayer) (w : ℚ), (∀ l ∈ ls, LayerValid l) → 0 ≤ w →
      0 ≤ spec_recoveries spec_layer_recovery ls w := by
  intro ls
  induction ls with
  | nil => intro w _ _; simp [spec_recoveries]
  | cons l rest ih =>
    intro w hv hw
    have hvl : LayerValid l := hv l (by simp)
    have hr : 0 ≤ spec_layer_recovery w l := by
      rw [← layer_recovery_eq_spec hvl hw]
      exact layer_recovery_nonneg hvl hw
    have hvrest : ∀ x ∈ rest, LayerValid x := fun x hx => hv x (by simp [hx])
    simp only [spec_recoveries]
    split_ifs with he
    · have hle : calculate_layer_recovery w l ≤ w := layer_recovery_le hvl hw he
      rw [← layer_recovery_eq_spec hvl hw] at hr ⊢
      have := ih (w - calculate_layer_recovery w l) hvrest (by linarith)
      linarith
    · have := ih w hvrest hw
      linarith

/-- The code's recovery loop equals the accumulator plus the spec's
recovery process, for valid layers and non-negative working loss. -/
theorem recoveryLoop_eq_spec :
    ∀ (ls : List ReinsuranceLayer) (t w : ℚ), (∀ l ∈ ls, LayerValid l) → 0 ≤ w →
      recoveryLoop ls t w = t + spec_recoveries spec_layer_recovery ls w := by
  intro ls
  induction ls with
  | nil => intro t w _ _; simp [recoveryLoop, spec_recoveries]
  | cons l rest ih =>
    intro t w hv hw
    have hvl : LayerValid l := hv l (by simp)
    have hvrest : ∀ x ∈ rest, LayerValid x := fun x hx => hv x (by simp [hx])
    by_cases hw0 : w ≤ 0
    · have hweq : w = 0 := le_antisymm hw0 hw
      subst hweq
      have hr : spec_layer_recovery 0 l = 0 := by
        rw [← layer_recovery_eq_spec hvl le_rfl, calculate_layer_recovery_nonpos l le_rfl]
      simp only [recoveryLoop, if_pos le_rfl, spec_recoveries, hr]
      have hrest : spec_recoveries spec_layer_recovery rest ((0 : ℚ) - 0) = 0 := by
        rw [show (0 : ℚ) - 0 = 0 by ring]
        exact spec_recoveries_at_zero rest hvrest
      split_ifs <;> simp_all [spec_recoveries_at_zero rest hvrest]
    · simp only [recoveryLoop, if_neg hw0, spec_recoveries]
      rw [layer_recovery_eq_spec hvl hw]
      split_ifs with he
      · have hle : calculate_layer_recovery w l ≤ w := layer_recovery_le hvl hw he
        rw [layer_recovery_eq_spec hvl hw] at hle
        rw [show (0 : ℚ) ⊔ (w - spec_layer_recovery w l) = w - spec_layer_recovery w l
          from max_eq_right (by linarith)]
        rw [ih (t + spec_layer_recovery w l) (w - spec_layer_recovery w l) hvrest
          (by linarith)]
        ring
      · rw [ih (t + spec_layer_recovery w l) w hvrest hw]
        ring

/-- C3 counterexample: for a working loss of 5 below a stop-loss layer's
attachment of 10, the code recovers 0, while the claim's literal formula
`min((loss − attachment)·cession_rate, limit)` yields −5/2; stacking a
quota-share layer behind it, the literal spec pipeline nets 5 where the
code nets 9/2. -/
theorem stop_loss_literal_formula_diverges :
    calculate_layer_recovery 5 stop_above = 0 ∧
      spec_layer_recovery_literal 5 stop_above = -(5/2) ∧
      (0 : ℚ) ≠ -(5/2) ∧
      spec_net_loss_literal 5 [stop_above, qs10] = 5 ∧
      5 - calculate_reinsurance_recovery 5 [stop_above, qs10] = 9/2 ∧
      (5 : ℚ) ≠ 9/2 := by
  refine ⟨?_, ?_, by norm_num, ?_, ?_, by norm_num⟩
  · simp [calculate_layer_recovery, stop_above, minWithLimit]
    norm_num
  · simp [spec_layer_recovery_literal, stop_above, specCap]
    norm_num
  · simp [spec_net_loss_literal, spec_net_loss_with, spec_recoveries,
      spec_layer_recovery_literal, sortLayers, List.insertionSort,
      List.orderedInsert, stop_above, qs10, specCap]
    norm_num
  · simp [calculate_reinsurance_recovery, sortLayers, List.insertionSort,
      List.orderedInsert, recoveryLoop, calculate_layer_recovery, stop_above,
      qs10, minWithLimit]
    norm_num

/-- C3 (amended): for every non-negative gross loss and every list of
constructible (validated) layers, the code's final net insurer loss equals
the spec cascade in ascending priority with the per-kind recoveries —
quota share `loss·cession` leaving the working loss unchanged, surplus
`min(loss, limit)·cession`, excess-of-loss `min(max(0, loss −
attachment), limit)` eroding the working loss, and stop-loss recovering 0
at or below its attachment and `min((loss − attachment)·cession, limit)`
above it (the claim's unguarded stop-loss formula is what fails) — with
the net floored at zero and capped at the initial gross. -/
theorem reinsurance_cascade_net_loss (gross : ℚ) (layers : List ReinsuranceLayer)
    (hg : 0 ≤ gross) (hv : ∀ l ∈ layers, LayerValid l) :
    gross - calculate_reinsurance_recovery gross layers = spec_net_loss gross layers ∧
      0 ≤ gross - calculate_reinsurance_recovery gross layers ∧
      gross - calculate_reinsurance_recovery gross layers ≤ gross := by
  have hvs : ∀ l ∈ sortLayers layers, LayerValid l := fun l hl =>
    hv l ((List.perm_insertionSort _ layers).subset hl)
  unfold calculate_reinsurance_recovery spec_net_loss spec_net_loss_with
  by_cases hnil : layers = []
  · subst hnil
    rw [if_pos (Or.inl rfl)]
    have hs : sortLayers ([] : List ReinsuranceLayer) = [] := rfl
    rw [hs]
    simp only [spec_recoveries, sub_zero]
    refine ⟨?_, by linarith, by linarith⟩
    rw [max_eq_left hg, min_self]
  · by_cases hg0 : gross ≤ 0
    · have hge : gross = 0 := le_antisymm hg0 hg
      subst hge
      rw [if_pos (Or.inr le_rfl), spec_recoveries_at_zero _ hvs]
      norm_num
    · rw [if_neg (by push_neg; exact ⟨hnil, by linarith⟩)]
      rw [recoveryLoop_eq_spec (sortLayers layers) 0 gross hvs hg, zero_add]
      set S := spec_recoveries spec_layer_recovery (sortLayers layers) gross with hS
      have hS0 : 0 ≤ S := spec_recoveries_nonneg _ gross hvs hg
      rcases le_total S gross with hSl | hSl
      · rw [min_eq_left hSl, max_eq_left (by linarith), min_eq_left (by linarith)]
        refine ⟨rfl, by linarith, by linarith⟩
      · rw [min_eq_right hSl, max_eq_right (by linarith), min_eq_left hg]
        refine ⟨by ring, by linarith, by linarith⟩

/-- Witness for `reinsurance_cascade_net_loss`: the stop-loss + quota-share
stack at gross 5. -/
theorem reinsurance_cascade_net_loss_witness :
    (0 : ℚ) ≤ 5 ∧ (∀ l ∈ [stop_above, qs10], LayerValid l) ∧
      5 - calculate_reinsurance_recovery 5 [stop_above, qs10] =
        spec_net_loss 5 [stop_above, qs10] := by
  have hval : ∀ l ∈ [stop_above, qs10], LayerValid l := by
    intro l hl
    simp only [List.mem_cons, List.not_mem_nil, or_false] at hl
    rcases hl with rfl | rfl
    · refine ⟨by simp [stop_above, validLayerTypes], by norm_num [stop_above],
        ?_, by norm_num [stop_above], by norm_num [stop_above]⟩
      intro lim hlim
      simp only [stop_above, Option.some.injEq] at hlim
      rw [← hlim]
      norm_num
    · refine ⟨by simp [qs10, validLayerTypes], by norm_num [qs10],
        ?_, by norm_num [qs10], by norm_num [qs10]⟩
      intro lim hlim
      simp [qs10] at hlim
  exact ⟨by norm_num, hval,
    (reinsurance_cascade_net_loss 5 [stop_above, qs10] (by norm_num) hval).1⟩

/-- Over quota-share-only layers the recovery loop cedes
`w · Σ cession_rate` and never erodes the working loss. -/
theorem recoveryLoop_quota :
    ∀ ls : List ReinsuranceLayer, (∀ l ∈ ls, l.layer_type = "quota_share") →
      ∀ t w : ℚ, 0 < w →
        recoveryLoop ls t w = t + w * (ls.map ReinsuranceLayer.cession_rate).sum := by
  intro ls
  induction ls with
  | nil => intro _ t w _; simp [recoveryLoop]
  | cons l rest ih =>
    intro hq t w hw
    have hl : l.layer_type = "quota_share" := hq l (by simp)
    have hrest : ∀ x ∈ rest, x.layer_type = "quota_share" := fun x hx =>
      hq x (by simp [hx])
    have hr : calculate_layer_recovery w l = w * l.cession_rate := by
      unfold calculate_layer_recovery
      rw [if_neg (not_le.mpr hw), if_pos hl]
    simp only [recoveryLoop, if_neg (not_le.mpr hw), hl, hr]
    rw [if_neg (by decide)]
    rw [ih hrest (t + w * l.cession_rate) w hw]
    simp only [List.map_cons, List.sum_cons]
    ring

/-- The priority sort preserves the multiset of cession rates, hence their
sum. -/
theorem sortLayers_cession_sum (ls : List ReinsuranceLayer) :
    ((sortLayers ls).map ReinsuranceLayer.cession_rate).sum =
      (ls.map ReinsuranceLayer.cession_rate).sum :=
  ((List.perm_insertionSort _ ls).map ReinsuranceLayer.cession_rate).sum_eq

/-- Scalar path, quota-share-only shape: the per-event net loss is the
covered loss scaled by `1 − min(Σ cession, 1)`. -/
theorem net_loss_quota_elem (s : ℚ) (p : PolicyTerms)
    (layers : List ReinsuranceLayer)
    (hci : p.coinsurance ≤ 1) (hL : 0 ≤ p.coverage_limit)
    (hsub : p.sub_limits = [])
    (hq : ∀ l ∈ layers, l.layer_type = "quota_share") :
    (calculate_net_loss s p layers none).insurer_net_loss =
      min (max 0 (s - p.deductible) * (1 - p.coinsurance)) p.coverage_limit *
        (1 - min ((layers.map ReinsuranceLayer.cession_rate).sum) 1) := by
  have hq' : ∀ l ∈ sortLayers layers, l.layer_type = "quota_share" := fun l hl =>
    hq l ((List.perm_insertionSort _ layers).subset hl)
  set w := min (max 0 (s - p.deductible) * (1 - p.coinsurance)) p.coverage_limit
    with hwdef
  have hw0 : 0 ≤ w :=
    le_min (mul_nonneg (le_max_left 0 _) (by linarith)) hL
  have hcov : (calculate_net_loss s p layers none).insurer_net_loss =
      w - (if layers = [] then 0 else calculate_reinsurance_recovery w layers) := by
    simp [calculate_net_loss, is_within_waiting_period, apply_sub_limits, hsub, hwdef]
  rw [hcov]
  by_cases hnil : layers = []
  · subst hnil
    simp
  · rw [if_neg hnil]
    unfold calculate_reinsurance_recovery
    by_cases hwz : w ≤ 0
    · have : w = 0 := le_antisymm hwz hw0
      rw [if_pos (Or.inr hwz), this]
      ring
    · rw [if_neg (by push_neg; exact ⟨hnil, by linarith⟩)]
      rw [recoveryLoop_quota (sortLayers layers) hq' 0 w (by linarith), zero_add,
        sortLayers_cession_sum]
      set C := (layers.map ReinsuranceLayer.cession_rate).sum with hC
      rcases le_total C 1 with hc1 | hc1
      · rw [min_eq_left (by nlinarith), min_eq_left hc1]
        ring
      · rw [min_eq_right (by nlinarith), min_eq_right hc1]
        ring

/-- Vectorized path, quota-share-only shape: each batch entry is the
covered loss scaled by the same combined cession factor. -/
theorem calculate_batch_losses_quota (sev : List ℚ) (p : PolicyTerms)
    (layers : List ReinsuranceLayer) (hsub : p.sub_limits = [])
    (hq : ∀ l ∈ layers, l.layer_type = "quota_share") :
    calculate_batch_losses sev p layers =
      sev.map (fun s =>
        min (max 0 (s - p.deductible) * (1 - p.coinsurance)) p.coverage_limit *
          (1 - min ((layers.map ReinsuranceLayer.cession_rate).sum) 1)) := by
  unfold calculate_batch_losses
  simp only [hsub]
  by_cases hnil : layers = []
  · subst hnil
    simp [List.map_map]
  · have hfil : layers.filter (fun l => l.layer_type = "quota_share") = layers :=
      List.filter_eq_self.mpr (fun a ha => by simp [hq a ha])
    rw [if_pos (by simpa using hnil)]
    rw [hfil, if_pos (by simpa using hnil)]
    simp only [List.map_map]
    apply List.map_congr_left
    intro s _
    rfl

/-- C4: on the common portfolio shape (single policy, quota-share-only
layers, no sub-limits) the scalar per-event path and the vectorized batch
path agree: the sum of `calculate_net_loss` net losses equals the sum of
the `calculate_batch_losses` array. -/
theorem batch_scalar_quota_equiv (sev : List ℚ) (p : PolicyTerms)
    (layers : List ReinsuranceLayer)
    (hci : p.coinsurance ≤ 1) (hL : 0 ≤ p.coverage_limit)
    (hsub : p.sub_limits = [])
    (hq : ∀ l ∈ layers, l.layer_type = "quota_share") :
    (sev.map (fun s => (calculate_net_loss s p layers none).insurer_net_loss)).sum
      = (calculate_batch_losses sev p layers).sum := by
  rw [calculate_batch_losses_quota sev p layers hsub hq]
  congr 1
  apply List.map_congr_left
  intro s _
  exact net_loss_quota_elem s p layers hci hL hsub hq

/-- Witness for `batch_scalar_quota_equiv`: the S2/S3 inputs. -/
theorem batch_scalar_quota_equiv_witness :
    s2_policy.coinsurance ≤ 1 ∧ 0 ≤ s2_policy.coverage_limit ∧
      s2_policy.sub_limits = [] ∧
      (∀ l ∈ [qs30], l.layer_type = "quota_share") ∧
      (s2_severities.map
          (fun s => (calculate_net_loss s s2_policy [qs30] none).insurer_net_loss)).sum
        = (calculate_batch_losses s2_severities s2_policy [qs30]).sum := by
  have hq : ∀ l ∈ [qs30], l.layer_type = "quota_share" := by
    intro l hl
    simp only [List.mem_cons, List.not_mem_nil, or_false] at hl
    subst hl
    rfl
  exact ⟨by norm_num [s2_policy], by norm_num [s2_policy], rfl, hq,
    batch_scalar_quota_equiv s2_severities s2_policy [qs30]
      (by norm_num [s2_policy]) (by norm_num [s2_policy]) rfl hq⟩

/-- Accessing a sorted list is monotone in the index. -/
theorem sorted_getD_mono {s : List ℚ} (hs : s.Sorted (fun a b => a ≤ b)) {i j : ℕ}
    (hij : i ≤ j) (hj : j < s.length) : s.getD i 0 ≤ s.getD j 0 := by
  have hi : i < s.length := lt_of_le_of_lt hij hj
  rw [List.getD_eq_getElem s 0 hi, List.getD_eq_getElem s 0 hj]
  have := List.Sorted.rel_get_of_le hs (a := ⟨i, hi⟩) (b := ⟨j, hj⟩) hij
  simpa using this

theorem interpSorted_mono {s : List ℚ} (hs : s.Sorted (fun a b => a ≤ b))
    (hn : 1 ≤ s.length) {p1 p2 : ℚ} (h0 : 0 ≤ p1) (h12 : p1 ≤ p2)
    (h2 : p2 ≤ (s.length : ℚ) - 1) :
    interpSorted s p1 ≤ interpSorted s p2 := by
  set n := s.length with hnn
  have h01 : 0 ≤ p2 := le_trans h0 h12
  have hf1nn : 0 ≤ ⌊p1⌋ := Int.le_floor.mpr (by exact_mod_cast h0)
  have hf2nn : 0 ≤ ⌊p2⌋ := Int.le_floor.mpr (by exact_mod_cast h01)
  have hf12 : ⌊p1⌋ ≤ ⌊p2⌋ := Int.floor_le_floor h12
  have hk2top : ⌊p2⌋ ≤ (n : ℤ) - 1 := by
    have h' : (⌊p2⌋ : ℚ) ≤ (n : ℚ) - 1 := le_trans (Int.floor_le p2) h2
    exact_mod_cast h'
  have hk1top : ⌊p1⌋ ≤ (n : ℤ) - 1 := le_trans hf12 hk2top
  have hk1n : (⌊p1⌋.toNat : ℤ) = ⌊p1⌋ := Int.toNat_of_nonneg hf1nn
  have hk2n : (⌊p2⌋.toNat : ℤ) = ⌊p2⌋ := Int.toNat_of_nonneg hf2nn
  have hk12 : ⌊p1⌋.toNat ≤ ⌊p2⌋.toNat := Int.toNat_le_toNat hf12
  have hk2lt : ⌊p2⌋.toNat ≤ n - 1 := by omega
  have hk1lt : ⌊p1⌋.toNat ≤ n - 1 := le_trans hk12 hk2lt
  have hnpos : 0 < n := hn
  have hg1lo : ((⌊p1⌋.toNat : ℕ) : ℚ) ≤ p1 := by
    have h' : ((⌊p1⌋.toNat : ℕ) : ℚ) = ((⌊p1⌋ : ℤ) : ℚ) := by exact_mod_cast hk1n
    rw [h']
    exact Int.floor_le p1
  have hg1hi : p1 < ((⌊p1⌋.toNat : ℕ) : ℚ) + 1 := by
    have h' : ((⌊p1⌋.toNat : ℕ) : ℚ) = ((⌊p1⌋ : ℤ) : ℚ) := by exact_mod_cast hk1n
    rw [h']
    exact Int.lt_floor_add_one p1
  have hg2lo : ((⌊p2⌋.toNat : ℕ) : ℚ) ≤ p2 := by
    have h' : ((⌊p2⌋.toNat : ℕ) : ℚ) = ((⌊p2⌋ : ℤ) : ℚ) := by exact_mod_cast hk2n
    rw [h']
    exact Int.floor_le p2
  simp only [interpSorted]
  rw [← hnn]
  have hfq1 : ((⌊p1⌋ : ℤ) : ℚ) = ((⌊p1⌋.toNat : ℕ) : ℚ) := by exact_mod_cast hk1n.symm
  have hfq2 : ((⌊p2⌋ : ℤ) : ℚ) = ((⌊p2⌋.toNat : ℕ) : ℚ) := by exact_mod_cast hk2n.symm
  rw [hfq1, hfq2]
  have hab1 : s.getD ⌊p1⌋.toNat 0 ≤ s.getD (min (⌊p1⌋.toNat + 1) (n - 1)) 0 :=
    sorted_getD_mono hs (le_min (by omega) (by omega))
      (lt_of_le_of_lt (min_le_right _ _) (by omega))
  have hab2 : s.getD ⌊p2⌋.toNat 0 ≤ s.getD (min (⌊p2⌋.toNat + 1) (n - 1)) 0 :=
    sorted_getD_mono hs (le_min (by omega) (by omega))
      (lt_of_le_of_lt (min_le_right _ _) (by omega))
  rcases eq_or_lt_of_le hk12 with heq | hlt
  · rw [heq] at hab1 ⊢
    nlinarith [hab1, h12]
  · have step1 : s.getD ⌊p1⌋.toNat 0 +
        (p1 - ((⌊p1⌋.toNat : ℕ) : ℚ)) *
          (s.getD (min (⌊p1⌋.toNat + 1) (n - 1)) 0 - s.getD ⌊p1⌋.toNat 0) ≤
        s.getD (min (⌊p1⌋.toNat + 1) (n - 1)) 0 := by
      nlinarith [hab1, hg1hi, hg1lo]
    have step2 : s.getD (min (⌊p1⌋.toNat + 1) (n - 1)) 0 ≤ s.getD ⌊p2⌋.toNat 0 :=
      sorted_getD_mono hs (le_trans (min_le_left _ _) (by omega)) (by omega)
    have step3 : s.getD ⌊p2⌋.toNat 0 ≤ s.getD ⌊p2⌋.toNat 0 +
        (p2 - ((⌊p2⌋.toNat : ℕ) : ℚ)) *
          (s.getD (min (⌊p2⌋.toNat + 1) (n - 1)) 0 - s.getD ⌊p2⌋.toNat 0) := by
      nlinarith [hab2, hg2lo]
    linarith

theorem calculate_var_mono (L : List ℚ) (hL : L ≠ []) {c1 c2 : ℚ}
    (h0 : 0 ≤ c1) (h12 : c1 ≤ c2) (h2 : c2 ≤ 1) :
    calculate_var L c1 ≤ calculate_var L c2 := by
  unfold calculate_var npPercentile
  have hs : (L.insertionSort (fun a b => a ≤ b)).Sorted (fun a b => a ≤ b) :=
    List.sorted_insertionSort _ L
  have hlen : (L.insertionSort (fun a b => a ≤ b)).length = L.length :=
    List.length_insertionSort _ L
  have hn : 1 ≤ L.length := List.length_pos.mpr hL
  have hq : (0 : ℚ) ≤ (L.length : ℚ) - 1 := by
    have h' : (1 : ℚ) ≤ (L.length : ℚ) := by exact_mod_cast hn
    linarith
  apply interpSorted_mono hs (by omega)
  · exact mul_nonneg (div_nonneg (mul_nonneg h0 (by norm_num)) (by norm_num)) hq
  · apply mul_le_mul_of_nonneg_right _ hq
    have e1 : c1 * 100 / 100 = c1 := by ring
    have e2 : c2 * 100 / 100 = c2 := by ring
    rw [e1, e2]
    exact h12
  · rw [hlen]
    have e2 : c2 * 100 / 100 = c2 := by ring
    rw [e2]
    nlinarith [hq, h2]

theorem le_sum_of_all_le {l : List ℚ} {b : ℚ} (h : ∀ x ∈ l, b ≤ x) :
    (l.length : ℚ) * b ≤ l.sum := by
  induction l with
  | nil => simp
  | cons x xs ih =>
    have hx := h x (by simp)
    have ih' := ih (fun y hy => h y (by simp [hy]))
    simp only [List.length_cons, List.sum_cons]
    push_cast
    linarith

theorem calculate_var_le_tvar (L : List ℚ) (c : ℚ) :
    calculate_var L c ≤ calculate_tvar L c := by
  unfold calculate_tvar calculate_var
  by_cases h : (L.filter (fun x => npPercentile L (c * 100) ≤ x)).length > 0
  · rw [if_pos h]
    have hall : ∀ x ∈ L.filter (fun x => npPercentile L (c * 100) ≤ x),
        npPercentile L (c * 100) ≤ x := by
      intro x hx
      have := List.of_mem_filter hx
      simpa using this
    have hsum := le_sum_of_all_le hall
    have hlen : (0 : ℚ) <
        ((L.filter (fun x => npPercentile L (c * 100) ≤ x)).length : ℚ) := by
      exact_mod_cast h
    rw [le_div_iff₀ hlen]
    nlinarith [hsum]
  · rw [if_neg h]

/-- C7: for every non-empty loss vector and confidence levels
`c₁ ≤ c₂` among the calculator's defaults {0.95, 0.99, 0.999},
`VaR_{c₁} ≤ VaR_{c₂} ≤ TVaR_{c₂}` and `TVaR_{c₁} ≥ VaR_{c₁}`, where VaR is
the linearly-interpolated `100·c` percentile and TVaR the mean of the
losses `≥ VaR` (VaR itself when that tail is empty). -/
theorem var_tvar_monotone (L : List ℚ) (c1 c2 : ℚ) (hL : L ≠ [])
    (h1 : c1 ∈ confidence_levels) (h2 : c2 ∈ confidence_levels)
    (h12 : c1 ≤ c2) :
    calculate_var L c1 ≤ calculate_var L c2 ∧
      calculate_var L c2 ≤ calculate_tvar L c2 ∧
      calculate_var L c1 ≤ calculate_tvar L c1 := by
  have hb1 : 0 ≤ c1 ∧ c1 ≤ 1 := by
    fin_cases h1 <;> norm_num
  have hb2 : 0 ≤ c2 ∧ c2 ≤ 1 := by
    fin_cases h2 <;> norm_num
  exact ⟨calculate_var_mono L hL hb1.1 h12 hb2.2,
    calculate_var_le_tvar L c2, calculate_var_le_tvar L c1⟩

/-- Witness for `var_tvar_monotone`: the vector `[1, 2, 3]` at levels
0.95 and 0.99. -/
theorem var_tvar_monotone_witness :
    ([(1 : ℚ), 2, 3] ≠ []) ∧ (19/20 : ℚ) ∈ confidence_levels ∧
      (99/100 : ℚ) ∈ confidence_levels ∧ (19/20 : ℚ) ≤ 99/100 ∧
      calculate_var [(1 : ℚ), 2, 3] (19/20) ≤ calculate_var [(1 : ℚ), 2, 3] (99/100) :=
  ⟨by simp, by norm_num [confidence_levels], by norm_num [confidence_levels],
    by norm_num,
    (var_tvar_monotone [(1 : ℚ), 2, 3] (19/20) (99/100) (by simp)
      (by norm_num [confidence_levels]) (by norm_num [confidence_levels])
      (by norm_num)).1⟩

/-- The minimum of non-negative sub-limit values is non-negative. -/
theorem minValues_nonneg {v : ℚ} {rest : List (String × ℚ)} (hv : 0 ≤ v)
    (hr : ∀ kv ∈ rest, 0 ≤ kv.2) : 0 ≤ minValues v rest := by
  unfold minValues
  induction rest generalizing v with
  | nil => simpa using hv
  | cons kv rest ih =>
    simp only [List.map_cons, List.foldl_cons]
    exact ih (le_min hv (hr kv (by simp)))
      (fun x hx => hr x (by simp [hx]))

/-- Every entry of the no-reinsurance vectorized transform is non-negative
when the policy has coinsurance ≤ 1, a non-negative limit, and
non-negative sub-limit values. -/
theorem calculate_batch_losses_nonneg (sev : List ℚ) (p : PolicyTerms)
    (hci : p.coinsurance ≤ 1) (hL : 0 ≤ p.coverage_limit)
    (hsub : ∀ kv ∈ p.sub_limits, 0 ≤ kv.2) :
    ∀ x ∈ calculate_batch_losses sev p [], 0 ≤ x := by
  intro x hx
  unfold calculate_batch_losses at hx
  rcases hs : p.sub_limits with _ | ⟨⟨k, v⟩, rest⟩ <;> rw [hs] at hx <;>
    simp only [List.map_map, if_neg (fun h : ([] : List ReinsuranceLayer) ≠ [] => h rfl)]
      at hx <;>
    obtain ⟨s, -, rfl⟩ := List.mem_map.mp hx
  · exact le_min (mul_nonneg (le_max_left 0 _) (by linarith)) hL
  · refine le_min (le_min (mul_nonneg (le_max_left 0 _) (by linarith)) hL) ?_
    rw [hs] at hsub
    exact minValues_nonneg (hsub (k, v) (by simp)) (fun kv hkv => hsub kv (by simp [hkv]))

/-- Per-policy validity hypotheses for non-negativity: enforced-constraint
consequences plus the spec's (unenforced) non-negative sub-limits. -/
def PortfolioOk (policies : List (String × PolicyTerms)) : Prop :=
  ∀ pp ∈ policies, pp.2.coinsurance ≤ 1 ∧ 0 ≤ pp.2.coverage_limit ∧
    ∀ kv ∈ pp.2.sub_limits, 0 ≤ kv.2

/-- One engine iteration produces a non-negative loss, in both ground-up
and portfolio mode. -/
theorem iteration_loss_nonneg (oracle : SamplerOracle)
    (params : SimulationParameters)
    (policies : List (String × PolicyTerms)) (i : ℕ)
    (hsev : ∀ j k x, x ∈ oracle.severities j k → 0 ≤ x)
    (hpol : PortfolioOk policies) :
    0 ≤ iteration_loss oracle params policies i := by
  simp only [iteration_loss, calculate_portfolio_iteration_loss]
  split_ifs with h1 h2 h3
  · apply List.sum_nonneg
    intro x hx
    obtain ⟨pp, hpp, rfl⟩ := List.mem_map.mp hx
    apply List.sum_nonneg
    intro y hy
    exact calculate_batch_losses_nonneg _ pp.2 (hpol pp hpp).1
      (hpol pp hpp).2.1 (hpol pp hpp).2.2 y hy
  · apply List.sum_nonneg
    intro x hx
    obtain ⟨pp, hpp, rfl⟩ := List.mem_map.mp hx
    exact le_rfl
  · exact List.sum_nonneg (fun x hx => hsev i _ x hx)
  · exact le_rfl

/-- Without cancellation the sequential loop runs exactly `fuel`
iterations. -/
theorem sequential_losses_no_stop_length (oracle : SamplerOracle)
    (params : SimulationParameters) (policies : List (String × PolicyTerms)) :
    ∀ (fuel i : ℕ),
      (sequential_losses oracle params policies (fun _ => false) i fuel).length
        = fuel := by
  intro fuel
  induction fuel with
  | zero => intro i; rfl
  | succ n ih =>
    intro i
    simp only [sequential_losses, Bool.false_eq_true, if_false, List.length_cons,
      ih (i + 1)]

/-- Every entry the sequential loop emits is some iteration's loss. -/
theorem sequential_losses_mem (oracle : SamplerOracle)
    (params : SimulationParameters) (policies : List (String × PolicyTerms))
    (stop : ℕ → Bool) :
    ∀ (fuel i : ℕ) (x : ℚ), x ∈ sequential_losses oracle params policies stop i fuel →
      ∃ j, x = iteration_loss oracle params policies j := by
  intro fuel
  induction fuel with
  | zero => intro i x hx; cases hx
  | succ n ih =>
    intro i x hx
    simp only [sequential_losses] at hx
    split_ifs at hx with h
    · cases hx
    · rcases List.mem_cons.mp hx with rfl | hx
      · exact ⟨i, rfl⟩
      · exact ih (i + 1) x hx

/-- The batch layout covers `[start, n)` exactly: the batch sizes sum to
`n − start` whenever the fuel suffices. -/
theorem build_batches_sizes {bs : ℕ} (hbs : 1 ≤ bs) :
    ∀ (fuel start n : ℕ), n ≤ start + fuel * bs →
      ((build_batches fuel start n bs).map (fun se => se.2 - se.1)).sum
        = n - start := by
  intro fuel
  induction fuel with
  | zero =>
    intro start n hle
    rw [Nat.zero_mul] at hle
    simp only [build_batches, List.map_nil, List.sum_nil]
    omega
  | succ f ih =>
    intro start n hle
    rw [Nat.succ_mul] at hle
    simp only [build_batches]
    split_ifs with h
    · simp only [List.map_cons, List.sum_cons]
      rw [ih (start + bs) n (by omega)]
      omega
    · simp only [List.map_nil, List.sum_nil]
      omega

/-- Without cancellation the parallel path produces exactly
`num_iterations` entries. -/
theorem parallel_losses_length (batchOracle : ℕ → SamplerOracle)
    (params : SimulationParameters)
    (policies : List (String × PolicyTerms))
    (hbs : 1 ≤ params.batch_size) :
    (parallel_losses batchOracle params policies).length
      = params.num_iterations := by
  unfold parallel_losses run_simulation_batch batches
  rw [List.length_flatMap]
  have hcover : params.num_iterations ≤
      0 + params.num_iterations * params.batch_size := by
    have := Nat.mul_le_mul_left params.num_iterations hbs
    omega
  have := build_batches_sizes hbs params.num_iterations 0 params.num_iterations
    hcover
  calc (List.map
        (List.length ∘ fun se =>
          List.map (iteration_loss (batchOracle se.1) params policies)
            (List.range (se.2 - se.1)))
        (build_batches params.num_iterations 0 params.num_iterations
          params.batch_size)).sum
      = (List.map (fun se => se.2 - se.1)
          (build_batches params.num_iterations 0 params.num_iterations
            params.batch_size)).sum := by
        apply congrArg
        apply List.map_congr_left
        intro se _
        simp
    _ = params.num_iterations := by simpa using this

/-- Every entry of the parallel result is some batch iteration's loss. -/
theorem parallel_losses_mem (batchOracle : ℕ → SamplerOracle)
    (params : SimulationParameters)
    (policies : List (String × PolicyTerms)) (x : ℚ)
    (hx : x ∈ parallel_losses batchOracle params policies) :
    ∃ b j, x = iteration_loss (batchOracle b) params policies j := by
  unfold parallel_losses run_simulation_batch at hx
  obtain ⟨se, -, hmem⟩ := List.mem_flatMap.mp hx
  obtain ⟨j, -, rfl⟩ := List.mem_map.mp hmem
  exact ⟨se.1, j, rfl⟩

/-- Inverting a successful `execute_simulation`: the completed count is the
emitted vector's length, and the vector is the parallel or sequential
result according to the parallel flag. -/
theorem execute_simulation_ok_fields (o : SamplerOracle) (b : ℕ → SamplerOracle)
    (params : SimulationParameters) (port : List (String × PolicyTerms))
    (stop : ℕ → Bool) (losses : List ℚ) (completed : ℕ)
    (h : execute_simulation o b params port stop = .ok (losses, completed)) :
    completed = losses.length ∧
      ((params.parallel_processing ∧ params.max_workers ≠ some 1) →
        losses = parallel_losses b params port) ∧
      (¬ (params.parallel_processing ∧ params.max_workers ≠ some 1) →
        losses = sequential_losses o params port stop 0 params.num_iterations) := by
  unfold execute_simulation at h
  cases h1 : create_frequency_distribution params.event_params with
  | error e => rw [h1] at h; simp [Bind.bind, Except.bind] at h
  | ok u =>
    rw [h1] at h
    cases h2 : create_severity_distribution params.event_params with
    | error e => rw [h2] at h; simp [Bind.bind, Except.bind] at h
    | ok u2 =>
      rw [h2] at h
      simp only [Bind.bind, Except.bind] at h
      split_ifs at h with hpar
      · simp only [pure, Except.pure, Except.ok.injEq, Prod.mk.injEq] at h
        obtain ⟨hl, hc⟩ := h
        subst hl
        subst hc
        exact ⟨rfl, fun _ => rfl, fun hn => absurd hpar hn⟩
      · simp only [pure, Except.pure, Except.ok.injEq, Prod.mk.injEq] at h
        obtain ⟨hl, hc⟩ := h
        subst hl
        subst hc
        exact ⟨rfl, fun hp => absurd hp hpar, fun _ => rfl⟩

theorem run_simulation_ok_fields (o : SamplerOracle) (b : ℕ → SamplerOracle)
    (params : SimulationParameters) (port : List (String × PolicyTerms))
    (stop : ℕ → Bool) (r : SimResults)
    (h : run_simulation o b params port stop = .ok r) :
    execute_simulation o b params port stop =
      .ok (r.aggregate_losses, r.completed_iterations) ∧
      r.total_iterations = params.num_iterations := by
  unfold run_simulation at h
  cases hin : run_simulation_inner o b params port stop with
  | error e => rw [hin] at h; cases h
  | ok r' =>
    rw [hin] at h
    cases h
    unfold run_simulation_inner at hin
    cases hv : params.validate with
    | error e => rw [hv] at hin; simp [Bind.bind, Except.bind] at hin
    | ok u =>
      rw [hv] at hin
      cases hex : execute_simulation o b params port stop with
      | error e => rw [hex] at hin; simp [Bind.bind, Except.bind] at hin
      | ok lc =>
        rw [hex] at hin
        simp only [Bind.bind, Except.bind] at hin
        split_ifs at hin with hz
        cases hm : calculate_metrics lc.1 with
        | error e => rw [hm] at hin; simp at hin
        | ok m =>
          rw [hm] at hin
          simp only [pure, Except.pure, Except.ok.injEq] at hin
          rw [← hin]
          exact ⟨by simp [hex], rfl⟩

/-- A constructible policy whose sub-limit value is negative (the
validator does not reject it — see C9). -/
def bad_sub_policy : PolicyTerms :=
  { policy_id := "p", coverage_limit := 1000000, sub_limits := [("x", -5)] }

/-- Oracle: one severity-100 event in iteration 0, none afterwards. -/
def oracle_c8 : SamplerOracle :=
  { eventCount := fun i => if i = 0 then 1 else 0,
    severities := fun _ _ => [100] }

/-- A 2-iteration sequential job. -/
def params_c8 : SimulationParameters :=
  { num_iterations := 2, batch_size := 2, parallel_processing := false,
    event_params := pl_event_params }

/-- C8 counterexample: a job over a constructible policy with a negative
sub-limit completes without error, yet its returned loss vector contains
the negative entry −5 (the minimum sub-limit is applied as a blanket cap,
below zero). -/
theorem negative_sublimit_loss_entry :
    PolicyTerms.post_init bad_sub_policy = .ok bad_sub_policy ∧
      (run_simulation oracle_c8 (fun _ => oracle_c8) params_c8
          [("p", bad_sub_policy)] (fun _ => false)).isOk = true ∧
      (run_simulation oracle_c8 (fun _ => oracle_c8) params_c8
          [("p", bad_sub_policy)] (fun _ => false)).toOption.map
            SimResults.aggregate_losses = some [(-5 : ℚ), 0] ∧
      ¬ (∀ x ∈ [(-5 : ℚ), 0], 0 ≤ x) := by
  have hit0 : iteration_loss oracle_c8 params_c8 [("p", bad_sub_policy)] 0 = -5 := by
    norm_num [iteration_loss, oracle_c8, params_c8,
      calculate_portfolio_iteration_loss, calculate_batch_losses, minValues,
      bad_sub_policy]
  have hit1 : iteration_loss oracle_c8 params_c8 [("p", bad_sub_policy)] 1 = 0 := by
    norm_num [iteration_loss, oracle_c8]
  have hloss : sequential_losses oracle_c8 params_c8 [("p", bad_sub_policy)]
      (fun _ => false) 0 2 = [-5, 0] := by
    simp [sequential_losses, hit0, hit1]
  have hval : params_c8.validate = .ok () := by
    simp [SimulationParameters.validate, validate_basic_params,
      validate_event_params, EventParameters.validate, validate_frequency_params,
      validate_severity_params, validate_financial_params,
      validate_performance_params, validate_output_params, pl_event_params,
      params_c8, Bind.bind, Except.bind, List.lookup]
    norm_num
  have hfreq : create_frequency_distribution pl_event_params = .ok () := by
    simp [create_frequency_distribution, validate_frequency_params,
      pl_event_params, List.lookup]
    norm_num
  have hsev2 : create_severity_distribution pl_event_params = .ok () := by
    simp [create_severity_distribution, validate_severity_params,
      pl_event_params, List.lookup]
    norm_num
  have hep : params_c8.event_params = pl_event_params := rfl
  have hexec : execute_simulation oracle_c8 (fun _ => oracle_c8) params_c8
      [("p", bad_sub_policy)] (fun _ => false) = .ok ([-5, 0], 2) := by
    simp only [execute_simulation, hep, hfreq, hsev2, Bind.bind, Except.bind]
    rw [if_neg (by simp [params_c8])]
    have hn : params_c8.num_iterations = 2 := rfl
    rw [hn, hloss]
    rfl
  have hclean : clean_loss_data [(-5 : ℚ), 0] = [0] := by
    norm_num [clean_loss_data, List.filter]
  have hmet : ∃ m, calculate_metrics [(-5 : ℚ), 0] = .ok m := by
    simp only [calculate_metrics, hclean]
    norm_num
  obtain ⟨m, hm⟩ := hmet
  have hrun : run_simulation oracle_c8 (fun _ => oracle_c8) params_c8
      [("p", bad_sub_policy)] (fun _ => false) =
      .ok { total_iterations := 2, aggregate_losses := [-5, 0],
            completed_iterations := 2, risk_metrics := m } := by
    simp only [run_simulation, run_simulation_inner, hval, hexec, hm,
      Bind.bind, Except.bind]
    rfl
  refine ⟨by norm_num [PolicyTerms.post_init, bad_sub_policy], ?_, ?_, by norm_num⟩
  · rw [hrun]
    rfl
  · rw [hrun]
    rfl

/-- C8 (amended): for every job that completes without cancellation or
error, the returned loss vector has length exactly the requested
iterations and completed_iterations equals it, in both the sequential and
parallel paths and in both ground-up and portfolio modes; every entry is
≥ 0 PROVIDED sampled severities are non-negative and each policy has
coinsurance ≤ 1, a non-negative limit, and non-negative sub-limit values —
the last condition is required by the spec's data model but NOT enforced
at construction, and a negative sub-limit produces a negative entry. -/
theorem loss_vector_length_nonneg (o : SamplerOracle) (b : ℕ → SamplerOracle)
    (params : SimulationParameters) (port : List (String × PolicyTerms))
    (r : SimResults)
    (hsev : ∀ j k x, x ∈ o.severities j k → 0 ≤ x)
    (hsevb : ∀ s j k x, x ∈ (b s).severities j k → 0 ≤ x)
    (hpol : PortfolioOk port)
    (hbs : 1 ≤ params.batch_size)
    (hok : run_simulation o b params port (fun _ => false) = .ok r) :
    r.aggregate_losses.length = params.num_iterations ∧
      r.completed_iterations = params.num_iterations ∧
      ∀ x ∈ r.aggregate_losses, 0 ≤ x := by
  obtain ⟨hex, htot⟩ := run_simulation_ok_fields o b params port _ r hok
  obtain ⟨hc, hp, hs⟩ := execute_simulation_ok_fields o b params port _ _ _ hex
  by_cases hpar : params.parallel_processing ∧ params.max_workers ≠ some 1
  · have hl := hp hpar
    have hlen : r.aggregate_losses.length = params.num_iterations := by
      rw [hl]
      exact parallel_losses_length b params port hbs
    refine ⟨hlen, by rw [hc, hlen], ?_⟩
    intro x hx
    rw [hl] at hx
    obtain ⟨s, j, rfl⟩ := parallel_losses_mem b params port x hx
    exact iteration_loss_nonneg (b s) params port j (hsevb s) hpol
  · have hl := hs hpar
    have hlen : r.aggregate_losses.length = params.num_iterations := by
      rw [hl]
      exact sequential_losses_no_stop_length o params port params.num_iterations 0
    refine ⟨hlen, by rw [hc, hlen], ?_⟩
    intro x hx
    rw [hl] at hx
    obtain ⟨j, rfl⟩ :=
      sequential_losses_mem o params port _ params.num_iterations 0 x hx
    exact iteration_loss_nonneg o params port j hsev hpol

/-- Oracle drawing zero events every iteration. -/
def zero_oracle : SamplerOracle :=
  { eventCount := fun _ => 0, severities := fun _ _ => [] }

/-- The metrics of an all-zero loss vector. -/
def zero_metrics : RiskMetrics :=
  { expected_loss := 0, variance := 0, minimum_loss := 0, maximum_loss := 0,
    var_95 := 0, var_99 := 0, var_99_9 := 0, tvar_95 := 0, tvar_99 := 0,
    tvar_99_9 := 0, probability_of_loss := 0, median_loss := 0 }

/-- Witness for `loss_vector_length_nonneg`: a 2-iteration sequential
ground-up run with zero events. -/
theorem loss_vector_length_nonneg_witness :
    (∀ j k x, x ∈ zero_oracle.severities j k → 0 ≤ x) ∧ PortfolioOk [] ∧
      1 ≤ params_c8.batch_size ∧
      run_simulation zero_oracle (fun _ => zero_oracle) params_c8 []
          (fun _ => false) =
        .ok { total_iterations := 2, aggregate_losses := [0, 0],
              completed_iterations := 2, risk_metrics := zero_metrics } ∧
      ([(0 : ℚ), 0].length = params_c8.num_iterations ∧
        (2 : ℕ) = params_c8.num_iterations ∧ ∀ x ∈ [(0 : ℚ), 0], 0 ≤ x) := by
  have hsev : ∀ j k x, x ∈ zero_oracle.severities j k → 0 ≤ x := by
    intro j k x hx
    cases hx
  have hpol : PortfolioOk [] := by
    intro pp hpp
    cases hpp
  have hit : ∀ i, iteration_loss zero_oracle params_c8 [] i = 0 := by
    intro i
    rfl
  have hloss : sequential_losses zero_oracle params_c8 [] (fun _ => false) 0 2
      = [0, 0] := by
    simp [sequential_losses, hit]
  have hval : params_c8.validate = .ok () := by
    simp [SimulationParameters.validate, validate_basic_params,
      validate_event_params, EventParameters.validate, validate_frequency_params,
      validate_severity_params, validate_financial_params,
      validate_performance_params, validate_output_params, pl_event_params,
      params_c8, Bind.bind, Except.bind, List.lookup]
    norm_num
  have hfreq : create_frequency_distribution pl_event_params = .ok () := by
    simp [create_frequency_distribution, validate_frequency_params,
      pl_event_params, List.lookup]
    norm_num
  have hsev2 : create_severity_distribution pl_event_params = .ok () := by
    simp [create_severity_distribution, validate_severity_params,
      pl_event_params, List.lookup]
    norm_num
  have hexec : execute_simulation zero_oracle (fun _ => zero_oracle) params_c8 []
      (fun _ => false) = .ok ([0, 0], 2) := by
    simp only [execute_simulation, show params_c8.event_params = pl_event_params
      from rfl, hfreq, hsev2, Bind.bind, Except.bind]
    rw [if_neg (by simp [params_c8])]
    rw [show params_c8.num_iterations = 2 from rfl, hloss]
    rfl
  have hm : calculate_metrics [(0 : ℚ), 0] = .ok zero_metrics := by
    have hclean : clean_loss_data [(0 : ℚ), 0] = [0, 0] := by
      norm_num [clean_loss_data, List.filter]
    simp only [calculate_metrics, hclean]
    norm_num [zero_metrics, sampleVariance, calculate_var, calculate_tvar,
      npPercentile, interpSorted, List.insertionSort, List.orderedInsert,
      List.filter, Int.fract, Int.floor_eq_iff]
  have hrun : run_simulation zero_oracle (fun _ => zero_oracle) params_c8 []
      (fun _ => false) =
      .ok { total_iterations := 2, aggregate_losses := [0, 0],
            completed_iterations := 2, risk_metrics := zero_metrics } := by
    simp only [run_simulation, run_simulation_inner, hval, hexec, hm,
      Bind.bind, Except.bind]
    rfl
  have happ := loss_vector_length_nonneg zero_oracle (fun _ => zero_oracle)
    params_c8 [] _ hsev (fun _ => hsev) hpol (by norm_num [params_c8]) hrun
  exact ⟨hsev, hpol, by norm_num [params_c8], hrun, happ⟩

/-- A 5-iteration sequential job (used by the cancellation scenario). -/
def params_c6 : SimulationParameters :=
  { num_iterations := 5, batch_size := 5, parallel_processing := false,
    event_params := pl_event_params }

/-- Evaluation of a sequential run of `params_c6` cancelled at iteration 2:
the engine returns a NORMAL ok result over the 2-iteration prefix. -/
theorem c6_run_eval :
    run_simulation zero_oracle (fun _ => zero_oracle) params_c6 []
        (fun i => decide (2 ≤ i)) =
      .ok { total_iterations := 5, aggregate_losses := [0, 0],
            completed_iterations := 2, risk_metrics := zero_metrics } := by
  have hit : ∀ i, iteration_loss zero_oracle params_c6 [] i = 0 := by
    intro i
    rfl
  have hloss : sequential_losses zero_oracle params_c6 []
      (fun i => decide (2 ≤ i)) 0 5 = [0, 0] := by
    simp [sequential_losses, hit]
  have hval : params_c6.validate = .ok () := by
    simp [SimulationParameters.validate, validate_basic_params,
      validate_event_params, EventParameters.validate, validate_frequency_params,
      validate_severity_params, validate_financial_params,
      validate_performance_params, validate_output_params, pl_event_params,
      params_c6, Bind.bind, Except.bind, List.lookup]
    norm_num
  have hfreq : create_frequency_distribution pl_event_params = .ok () := by
    simp [create_frequency_distribution, validate_frequency_params,
      pl_event_params, List.lookup]
    norm_num
  have hsev2 : create_severity_distribution pl_event_params = .ok () := by
    simp [create_severity_distribution, validate_severity_params,
      pl_event_params, List.lookup]
    norm_num
  have hexec : execute_simulation zero_oracle (fun _ => zero_oracle) params_c6 []
      (fun i => decide (2 ≤ i)) = .ok ([0, 0], 2) := by
    simp only [execute_simulation, show params_c6.event_params = pl_event_params
      from rfl, hfreq, hsev2, Bind.bind, Except.bind]
    rw [if_neg (by simp [params_c6])]
    rw [show params_c6.num_iterations = 5 from rfl, hloss]
    rfl
  have hm : calculate_metrics [(0 : ℚ), 0] = .ok zero_metrics := by
    have hclean : clean_loss_data [(0 : ℚ), 0] = [0, 0] := by
      norm_num [clean_loss_data, List.filter]
    simp only [calculate_metrics, hclean]
    norm_num [zero_metrics, sampleVariance, calculate_var, calculate_tvar,
      npPercentile, interpSorted, List.insertionSort, List.orderedInsert,
      List.filter, Int.fract, Int.floor_eq_iff]
  simp only [run_simulation, run_simulation_inner, hval, hexec, hm,
    Bind.bind, Except.bind]
  rfl

/-- C6 counterexample: with cancellation observed at iteration 2 of 5, the
engine does NOT return a cancellation error — it returns a normal ok
results value (there is no cancellation error kind in the taxonomy), whose
completed count is the partial 2 < 5. -/
theorem cancelled_run_returns_ok :
    (run_simulation zero_oracle (fun _ => zero_oracle) params_c6 []
        (fun i => decide (2 ≤ i))).isOk = true ∧
      (run_simulation zero_oracle (fun _ => zero_oracle) params_c6 []
          (fun i => decide (2 ≤ i))).toOption.map
        SimResults.completed_iterations = some 2 ∧
      (0 : ℕ) < 2 ∧ (2 : ℕ) < 5 := by
  rw [c6_run_eval]
  exact ⟨rfl, rfl, by norm_num, by norm_num⟩

/-- The sequential loop stops exactly at the first iteration whose stop
read is true. -/
theorem sequential_losses_stop_length (oracle : SamplerOracle)
    (params : SimulationParameters) (policies : List (String × PolicyTerms))
    (stop : ℕ → Bool) :
    ∀ (k fuel i : ℕ), k < fuel → (∀ j, j < k → stop (i + j) = false) →
      stop (i + k) = true →
      (sequential_losses oracle params policies stop i fuel).length = k := by
  intro k
  induction k with
  | zero =>
    intro fuel i hk hj hs
    rcases fuel with _ | f
    · omega
    · rw [Nat.add_zero] at hs
      simp [sequential_losses, hs]
  | succ k ih =>
    intro fuel i hk hj hs
    rcases fuel with _ | f
    · omega
    · have h0 : stop i = false := by
        have := hj 0 (by omega)
        rwa [Nat.add_zero] at this
      simp only [sequential_losses, h0, Bool.false_eq_true, if_false,
        List.length_cons]
      rw [ih f (i + 1) (by omega)
        (fun j hjk => by
          have := hj (j + 1) (by omega)
          rwa [show i + (j + 1) = i + 1 + j by omega] at this)
        (by rwa [show i + 1 + k = i + (k + 1) by omega])]

/-- C6 (amended): when cancellation is first observed at iteration
`k < iterations` of a sequential run and the run still produces a result,
the engine returns a NORMAL ok value — not a cancellation error (the error
taxonomy has no such kind) — whose completed count is the partial `k`,
strictly below the requested iterations, with the loss vector equal to the
executed prefix. -/
theorem cancellation_returns_ok_result (o : SamplerOracle)
    (b : ℕ → SamplerOracle) (params : SimulationParameters)
    (port : List (String × PolicyTerms)) (stop : ℕ → Bool) (r : SimResults)
    (k : ℕ)
    (hpar : params.parallel_processing = false)
    (hk : k < params.num_iterations)
    (hj : ∀ j, j < k → stop j = false)
    (hs : stop k = true)
    (hok : run_simulation o b params port stop = .ok r) :
    r.completed_iterations = k ∧
      r.completed_iterations < params.num_iterations ∧
      r.aggregate_losses =
        sequential_losses o params port stop 0 params.num_iterations := by
  obtain ⟨hex, htot⟩ := run_simulation_ok_fields o b params port stop r hok
  obtain ⟨hc, hp, hseq⟩ := execute_simulation_ok_fields o b params port stop _ _ hex
  have hl := hseq (by simp [hpar])
  have hlen := sequential_losses_stop_length o params port stop k
    params.num_iterations 0 hk
    (fun j hjk => by simpa using hj j hjk) (by simpa using hs)
  have hck : r.completed_iterations = k := by rw [hc, hl, hlen]
  exact ⟨hck, by omega, hl⟩

/-- Witness for `cancellation_returns_ok_result`: the concrete cancelled run
of `params_c6`. -/
theorem cancellation_returns_ok_result_witness :
    params_c6.parallel_processing = false ∧ (2 : ℕ) < params_c6.num_iterations ∧
      (∀ j, j < 2 → (fun i => decide (2 ≤ i)) j = false) ∧
      (fun i => decide (2 ≤ i)) 2 = true ∧
      ({ total_iterations := 5, aggregate_losses := [0, 0],
         completed_iterations := 2, risk_metrics := zero_metrics } :
          SimResults).completed_iterations = 2 := by
  refine ⟨rfl, by norm_num [params_c6], by decide, by decide, ?_⟩
  exact (cancellation_returns_ok_result zero_oracle (fun _ => zero_oracle)
    params_c6 [] (fun i => decide (2 ≤ i)) _ 2 rfl (by norm_num [params_c6])
    (by decide) (by decide) c6_run_eval).1

/-- C10: `run_simulation` either returns a results value or fails with
exactly the base `SimulationError` kind: every error escaping the inner
pipeline — `ParameterError` from spec validation, `DistributionError` from
sampler construction, or any other kind — is re-raised at the run boundary
as a `SimulationError` wrapping the original message, so callers never
observe the more specific kinds. -/
theorem run_simulation_only_simulation_error (o : SamplerOracle)
    (b : ℕ → SamplerOracle) (params : SimulationParameters)
    (port : List (String × PolicyTerms)) (stop : ℕ → Bool) :
    ((∃ r, run_simulation o b params port stop = .ok r) ∨
      (∃ m, run_simulation o b params port stop = .error (.simulationError m))) ∧
      (∀ e, run_simulation_inner o b params port stop = .error e →
        run_simulation o b params port stop =
          .error (.simulationError ("Simulation execution failed: " ++ e.message))) := by
  constructor
  · cases h : run_simulation_inner o b params port stop with
    | ok r =>
      left
      exact ⟨r, by unfold run_simulation; rw [h]⟩
    | error e =>
      right
      exact ⟨_, by unfold run_simulation; rw [h]⟩
  · intro e he
    unfold run_simulation
    rw [he]

/-- A spec with an invalid (negative) Poisson rate. -/
def params_bad : SimulationParameters :=
  { num_iterations := 10, batch_size := 10,
    event_params := { frequency_params := [("lambda", -1)],
                      severity_params := [("mu", 10), ("sigma", 1)] } }

/-- Witness for `run_simulation_only_simulation_error`: the invalid-lambda
spec fails inside validation with a `ParameterError`, and the caller
observes only the wrapping `SimulationError`. -/
theorem run_simulation_only_simulation_error_witness :
    run_simulation_inner zero_oracle (fun _ => zero_oracle) params_bad []
        (fun _ => false) =
      .error (.parameterError
        "Event parameter validation failed: Poisson lambda must be positive") ∧
      run_simulation zero_oracle (fun _ => zero_oracle) params_bad []
          (fun _ => false) =
        .error (.simulationError
          ("Simulation execution failed: " ++
            "Event parameter validation failed: Poisson lambda must be positive")) := by
  have hinner : run_simulation_inner zero_oracle (fun _ => zero_oracle)
      params_bad [] (fun _ => false) =
      .error (.parameterError
        "Event parameter validation failed: Poisson lambda must be positive") := by
    simp [run_simulation_inner, SimulationParameters.validate,
      validate_basic_params, validate_event_params, EventParameters.validate,
      validate_frequency_params, params_bad, Bind.bind, Except.bind,
      List.lookup, SimExc.message]
  refine ⟨hinner, ?_⟩
  have := (run_simulation_only_simulation_error zero_oracle
    (fun _ => zero_oracle) params_bad [] (fun _ => false)).2 _ hinner
  simpa [SimExc.message] using this
